import Mathlib

/-!
# Ventoy plugin loader (`ventoy_plugin.c`): section handlers and install-template registry

A shallow embedding of `grub-core/ventoy/ventoy_plugin.c`.

* C strings are the list of their characters before the terminating NUL.
* A nullable pointer is an `Option`; a `VTOY_JSON *` that heads a sibling chain
  (`pstNext`) is the `List` of the siblings, `NULL` being `[]`.
* The globals the file reads and writes (the GRUB environment, the list headed by
  `g_install_template_head`, and the room left on the heap) are the fields of
  `plugin_state`, passed explicitly.
* A function returns `none` when the C code dereferences a null pointer.
-/

namespace VentoyPlugin

/-- A C string, without its terminating NUL. -/
abbrev CStr := List Char

/-- Modelled from the spec: the kinds of a document node (`enDataType`); the enumeration is
declared in `ventoy_json.h`, which is not part of the sources. -/
inductive JSON_TYPE where
  | JSON_TYPE_NUMBER
  | JSON_TYPE_STRING
  | JSON_TYPE_BOOL
  | JSON_TYPE_ARRAY
  | JSON_TYPE_OBJECT
  | JSON_TYPE_NULL
deriving DecidableEq, Repr

open JSON_TYPE

/-- Modelled from the spec: the document node `VTOY_JSON` (declared in `ventoy_json.h`, not part
of the sources), with the members this file reads: `enDataType`, the optional `pcName`, the
string member `unData.pcStrVal` and the chain of children headed by `pstChild`. -/
inductive VTOY_JSON where
  | mk (enDataType : JSON_TYPE) (pcName : Option CStr) (pcStrVal : Option CStr)
      (pstChild : List VTOY_JSON)

/-- Member `enDataType`. -/
def VTOY_JSON.enDataType : VTOY_JSON → JSON_TYPE
  | .mk t _ _ _ => t

/-- Member `pcName` (`NULL` is `none`). -/
def VTOY_JSON.pcName : VTOY_JSON → Option CStr
  | .mk _ n _ _ => n

/-- Member `unData.pcStrVal` (`NULL` is `none`). -/
def VTOY_JSON.pcStrVal : VTOY_JSON → Option CStr
  | .mk _ _ v _ => v

/-- Member `pstChild`: the chain of children, in document order (`NULL` is `[]`). -/
def VTOY_JSON.pstChild : VTOY_JSON → List VTOY_JSON
  | .mk _ _ _ c => c

/-- One node of the list headed by `g_install_template_head`: the two character arrays of
`install_template`. -/
structure install_template where
  isopath : CStr
  templatepath : CStr
deriving DecidableEq, Repr

/-- The sizes of the two character arrays of `install_template` (`sizeof(node->isopath)` and
`sizeof(node->templatepath)`); the structure is declared in `ventoy_def.h`, which is not part of
the sources, so the sizes are a parameter. -/
structure install_template_sizes where
  isopath : Nat
  templatepath : Nat
deriving DecidableEq, Repr

/-- The state the file reads and writes: the GRUB environment, the list headed by
`g_install_template_head` (head first), and the heap `mm`, counted in the `install_template`
nodes it still has room for: `grub_zalloc` takes one and returns `NULL` when there is none,
`grub_free` gives one back. -/
structure plugin_state where
  env : CStr → Option CStr
  g_install_template_head : List install_template
  mm : Nat

/-- Modelled from the spec: `grub_env_set(name, val)`, an overwrite of one variable of the
environment store. -/
def grub_env_set (name val : CStr) (st : plugin_state) : plugin_state :=
  { st with env := fun k => if k = name then some val else st.env k }

/-- Modelled from the spec: `ventoy_set_env(name, val)` sets the environment variable `name` to
`val`. -/
def ventoy_set_env (name val : CStr) (st : plugin_state) : plugin_state :=
  grub_env_set name val st

/-- Modelled from the spec: the test `grub_strcmp(s1, s2) == 0`, an exact, case-sensitive,
byte-for-byte comparison. -/
def grub_strcmp_is0 (s1 s2 : CStr) : Bool :=
  decide (s1 = s2)

/-- The string `grub_snprintf(buf, size, "%s", s)` leaves in a zeroed `buf`: at most
`size - 1` characters of `s`. -/
def grub_snprintf (size : Nat) (s : CStr) : CStr :=
  s.take (size - 1)

/-- The call `grub_zalloc(sizeof(install_template))`: whether it returned a node, and the state
after it. -/
def grub_zalloc (st : plugin_state) : Bool × plugin_state :=
  match st.mm with
  | 0 => (false, st)
  | room + 1 => (true, { st with mm := room })

/-- The call `grub_free(node)` on a node of the list. -/
def grub_free (st : plugin_state) : plugin_state :=
  { st with mm := st.mm + 1 }

/-- Modelled from the spec: `vtoy_json_get_string_ex(pstJson, szKey)` (defined in
`ventoy_json.c`, not part of the sources): the string value of the first node of the sibling
chain that is a STRING named `szKey`; `NULL` when there is none. -/
def vtoy_json_get_string_ex : List VTOY_JSON → CStr → Option CStr
  | [], _ => none
  | pstJson :: pstNext, szKey =>
    if pstJson.enDataType = JSON_TYPE_STRING ∧ pstJson.pcName = some szKey then
      pstJson.pcStrVal
    else
      vtoy_json_get_string_ex pstNext szKey

/-- The test `s[0] == '/'` on a C string. -/
def starts_with_slash (s : CStr) : Bool :=
  match s with
  | [] => false
  | c :: _ => decide (c = '/')

/-! ## `ventoy_plugin_control_entry` -/

/-- The body of the loop of `ventoy_plugin_control_entry` for one array element `pNode`. -/
def control_entry_body (pNode : VTOY_JSON) (st : plugin_state) : Option plugin_state :=
  if pNode.enDataType = JSON_TYPE_OBJECT then
    match pNode.pstChild with
    | [] => none
    | pChild :: _ =>
      if pChild.enDataType = JSON_TYPE_STRING then
        match pChild.pcName, pChild.pcStrVal with
        | some name, some val => some (ventoy_set_env name val st)
        | _, _ => some st
      else
        some st
  else
    some st

/-- The loop `for (pNode = json->pstChild; pNode; pNode = pNode->pstNext)` of
`ventoy_plugin_control_entry`. -/
def control_entry_loop : List VTOY_JSON → plugin_state → Option plugin_state
  | [], st => some st
  | pNode :: pstNext, st =>
    match control_entry_body pNode st with
    | none => none
    | some st1 => control_entry_loop pstNext st1

/-- The handler of the `control` section; the result is the returned status and the state. -/
def ventoy_plugin_control_entry (json : VTOY_JSON) (_isodisk : CStr) (st : plugin_state) :
    Option (Int × plugin_state) :=
  if json.enDataType ≠ JSON_TYPE_ARRAY then
    some (0, st)
  else
    match control_entry_loop json.pstChild st with
    | none => none
    | some st1 => some (0, st1)

/-! ## `ventoy_plugin_theme_entry` -/

/-- The second half of `ventoy_plugin_theme_entry`: the `gfxmode` key. -/
def theme_entry_gfxmode (json : VTOY_JSON) (st : plugin_state) : Option (Int × plugin_state) :=
  match vtoy_json_get_string_ex json.pstChild "gfxmode".toList with
  | some value => some (0, grub_env_set "vtoy_gfxmode".toList value st)
  | none => some (0, st)

/-- The contents of `filepath` after the `grub_snprintf` of `ventoy_plugin_theme_entry`. -/
def theme_entry_filepath (isodisk value : CStr) : CStr :=
  if starts_with_slash value then
    grub_snprintf 256 (isodisk ++ value)
  else
    grub_snprintf 256 (isodisk ++ "/ventoy/".toList ++ value)

/-- The handler of the `theme` section. `ventoy_is_file_exist` is the volume: whether a path
names an existing file. -/
def ventoy_plugin_theme_entry (ventoy_is_file_exist : CStr → Bool) (json : VTOY_JSON)
    (isodisk : CStr) (st : plugin_state) : Option (Int × plugin_state) :=
  match vtoy_json_get_string_ex json.pstChild "file".toList with
  | some value =>
    let filepath := theme_entry_filepath isodisk value
    if ventoy_is_file_exist filepath = false then
      some (0, st)
    else
      theme_entry_gfxmode json (grub_env_set "vtoy_theme".toList filepath st)
  | none => theme_entry_gfxmode json st

/-! ## `ventoy_plugin_auto_install_entry` -/

/-- The body of the second loop of `ventoy_plugin_auto_install_entry` for one array element. -/
def auto_install_entry_body (sz : install_template_sizes) (pNode : VTOY_JSON)
    (st : plugin_state) : plugin_state :=
  match vtoy_json_get_string_ex pNode.pstChild "image".toList with
  | none => st
  | some iso =>
    if starts_with_slash iso then
      match vtoy_json_get_string_ex pNode.pstChild "template".toList with
      | none => st
      | some script =>
        if starts_with_slash script then
          let r := grub_zalloc st
          if r.1 then
            { r.2 with
              g_install_template_head :=
                { isopath := grub_snprintf sz.isopath iso,
                  templatepath := grub_snprintf sz.templatepath script }
                  :: r.2.g_install_template_head }
          else
            r.2
        else
          st
    else
      st

/-- The loop `for (pNode = json->pstChild; pNode; pNode = pNode->pstNext)` of
`ventoy_plugin_auto_install_entry`. -/
def auto_install_entry_loop (sz : install_template_sizes) :
    List VTOY_JSON → plugin_state → plugin_state
  | [], st => st
  | pNode :: pstNext, st => auto_install_entry_loop sz pstNext (auto_install_entry_body sz pNode st)

/-- The loop `for (node = g_install_template_head; node; node = next)` of
`ventoy_plugin_auto_install_entry`: every node of the list is freed. -/
def auto_install_entry_free : List install_template → plugin_state → plugin_state
  | [], st => st
  | _node :: next, st => auto_install_entry_free next (grub_free st)

/-- The first part of `ventoy_plugin_auto_install_entry`: when the list is not empty, every
node of it is freed and the head is reset. -/
def auto_install_entry_reset (st : plugin_state) : plugin_state :=
  if st.g_install_template_head ≠ [] then
    { auto_install_entry_free st.g_install_template_head st with
      g_install_template_head := [] }
  else
    st

/-- The handler of the `auto_install` section. -/
def ventoy_plugin_auto_install_entry (sz : install_template_sizes) (json : VTOY_JSON)
    (_isodisk : CStr) (st : plugin_state) : Option (Int × plugin_state) :=
  if json.enDataType ≠ JSON_TYPE_ARRAY then
    some (0, st)
  else
    some (0, auto_install_entry_loop sz json.pstChild (auto_install_entry_reset st))

/-! ## `g_plugin_entries` and `ventoy_parse_plugin_config` -/

/-- The type of `entryfunc` in `plugin_entry`. -/
abbrev plugin_entry_func := VTOY_JSON → CStr → plugin_state → Option (Int × plugin_state)

/-- The table `g_plugin_entries`. -/
def g_plugin_entries (sz : install_template_sizes) (ventoy_is_file_exist : CStr → Bool) :
    List (CStr × plugin_entry_func) :=
  [ ("control".toList, ventoy_plugin_control_entry),
    ("theme".toList, ventoy_plugin_theme_entry ventoy_is_file_exist),
    ("auto_install".toList, ventoy_plugin_auto_install_entry sz) ]

/-- The inner loop of `ventoy_parse_plugin_config` over the table, for the node `cur`:
`grub_strcmp` reads `cur->pcName`, and the first entry whose key equals it is run, its status
dropped. -/
def parse_plugin_config_scan :
    List (CStr × plugin_entry_func) → VTOY_JSON → CStr → plugin_state → Option plugin_state
  | [], _, _, st => some st
  | entry :: rest, cur, isodisk, st =>
    match cur.pcName with
    | none => none
    | some name =>
      if grub_strcmp_is0 entry.1 name then
        match entry.2 cur isodisk st with
        | none => none
        | some r => some r.2
      else
        parse_plugin_config_scan rest cur isodisk st

/-- The loop `while (cur)` of `ventoy_parse_plugin_config`. -/
def parse_plugin_config_loop (entries : List (CStr × plugin_entry_func)) :
    List VTOY_JSON → CStr → plugin_state → Option plugin_state
  | [], _, st => some st
  | cur :: pstNext, isodisk, st =>
    match parse_plugin_config_scan entries cur isodisk st with
    | none => none
    | some st1 => parse_plugin_config_loop entries pstNext isodisk st1

/-- The dispatcher `ventoy_parse_plugin_config(json, isodisk)`; `json` heads the chain of the
top-level children. -/
def ventoy_parse_plugin_config (sz : install_template_sizes) (ventoy_is_file_exist : CStr → Bool)
    (json : List VTOY_JSON) (isodisk : CStr) (st : plugin_state) : Option (Int × plugin_state) :=
  match parse_plugin_config_loop (g_plugin_entries sz ventoy_is_file_exist) json isodisk st with
  | none => none
  | some st1 => some (0, st1)

/-! ## `ventoy_plugin_get_install_template` -/

/-- The loop of `ventoy_plugin_get_install_template` over the list. -/
def get_install_template_loop (isopath : CStr) : List install_template → Option CStr
  | [] => none
  | node :: next =>
    if grub_strcmp_is0 node.isopath isopath then
      some node.templatepath
    else
      get_install_template_loop isopath next

/-- The lookup `ventoy_plugin_get_install_template(isopath)`: the template path, or `NULL`. -/
def ventoy_plugin_get_install_template (isopath : CStr) (st : plugin_state) : Option CStr :=
  get_install_template_loop isopath st.g_install_template_head

/-! ## Specification-side definitions and concrete inputs -/

/-- An array element as the specification reads it: its `image` and `template` string fields,
when both are present and both start with `/`. -/
def accepted_element (pNode : VTOY_JSON) : Option (CStr × CStr) :=
  match vtoy_json_get_string_ex pNode.pstChild "image".toList,
    vtoy_json_get_string_ex pNode.pstChild "template".toList with
  | some image, some template =>
    if starts_with_slash image && starts_with_slash template then some (image, template) else none
  | _, _ => none

/-- The accepted elements of an array, in array order. -/
def accepted_elements (arr : List VTOY_JSON) : List (CStr × CStr) :=
  arr.filterMap accepted_element

/-- The registry entry holding an accepted pair as it is: no truncation. -/
def plain_entry (p : CStr × CStr) : install_template :=
  { isopath := p.1, templatepath := p.2 }

/-- The registry entry an accepted pair is stored as: each string cut to its field. -/
def stored_entry (sz : install_template_sizes) (p : CStr × CStr) : install_template :=
  { isopath := grub_snprintf sz.isopath p.1, templatepath := grub_snprintf sz.templatepath p.2 }

/-- The room of the heap once the nodes of the registry are freed. -/
def room_after_free (st : plugin_state) : Nat :=
  st.mm + st.g_install_template_head.length



/-- The last accepted element of the array, in array order, whose image path is stored
as `p`. -/
def last_accepted (sz : install_template_sizes) (p : CStr) (arr : List VTOY_JSON) :
    Option (CStr × CStr) :=
  ((accepted_elements arr).filter (fun e => decide (grub_snprintf sz.isopath e.1 = p))).getLast?

/-- A state with an empty environment, an empty registry and a heap with room for sixteen
nodes. -/
def empty_state : plugin_state :=
  { env := fun _ => none, g_install_template_head := [], mm := 16 }

/-- A STRING member `"name": "val"`. -/
def json_string (name val : String) : VTOY_JSON :=
  .mk JSON_TYPE_STRING (some name.toList) (some val.toList) []

/-- An OBJECT with the given name and members. -/
def json_object (name : Option String) (members : List VTOY_JSON) : VTOY_JSON :=
  .mk JSON_TYPE_OBJECT (name.map String.toList) none members

/-- An ARRAY with the given name and elements. -/
def json_array (name : Option String) (elements : List VTOY_JSON) : VTOY_JSON :=
  .mk JSON_TYPE_ARRAY (name.map String.toList) none elements

/-- The `auto_install` node of scenario 3:
`[{"image":"/a.iso","template":"/a.cfg"},{"image":"/b.iso","template":"/b.cfg"}]`. -/
def scenario3_auto_install : VTOY_JSON :=
  json_array (some "auto_install")
    [ json_object none [json_string "image" "/a.iso", json_string "template" "/a.cfg"],
      json_object none [json_string "image" "/b.iso", json_string "template" "/b.cfg"] ]

/-- An image path of 300 characters: `/` followed by 299 times `a`. -/
def long_image : CStr :=
  '/' :: List.replicate 299 'a'

/-- The `auto_install` node `[{"image": long_image, "template": "/a.cfg"}]`. -/
def long_image_auto_install : VTOY_JSON :=
  json_array (some "auto_install")
    [ json_object none
        [ .mk JSON_TYPE_STRING (some "image".toList) (some long_image) [],
          json_string "template" "/a.cfg" ] ]

/-- The sizes `char isopath[256]` and `char templatepath[256]`. -/
def sizes_256 : install_template_sizes :=
  { isopath := 256, templatepath := 256 }

/-- A state with an empty environment, the given registry and a heap without room. -/
def full_heap_state (registry : List install_template) : plugin_state :=
  { env := fun _ => none, g_install_template_head := registry, mm := 0 }

/-- A registry with the one entry `/old.iso`. -/
def old_registry : List install_template :=
  [{ isopath := "/old.iso".toList, templatepath := "/old.cfg".toList }]

/-- The handler of the `auto_install` section run twice in succession on the same node. -/
def auto_install_entry_twice (sz : install_template_sizes) (json : VTOY_JSON) (isodisk : CStr)
    (st : plugin_state) : Option (Int × plugin_state) :=
  match ventoy_plugin_auto_install_entry sz json isodisk st with
  | none => none
  | some r => ventoy_plugin_auto_install_entry sz json isodisk r.2

/-- The last accepted element of the array, in array order, whose image path is `p`. -/
def last_accepted_plain (p : CStr) (arr : List VTOY_JSON) : Option (CStr × CStr) :=
  ((accepted_elements arr).filter (fun e => decide (e.1 = p))).getLast?

/-- The registry scenario 3 leaves: `/b.iso` first, then `/a.iso`. -/
def scenario3_registry : List install_template :=
  [ { isopath := "/b.iso".toList, templatepath := "/b.cfg".toList },
    { isopath := "/a.iso".toList, templatepath := "/a.cfg".toList } ]

/-- The `auto_install` node of scenario 5: the empty array. -/
def scenario5_auto_install : VTOY_JSON :=
  json_array (some "auto_install") []

/-- The path the `file` value `f` resolves to under the base path `b`, as the specification
words it: `b ++ f` when `f` starts with `/`, `b ++ "/ventoy/" ++ f` otherwise, cut to the 255
characters the path buffer holds. -/
def resolved_theme_path (b f : CStr) : CStr :=
  if f.head? = some '/' then (b ++ f).take 255 else (b ++ "/ventoy/".toList ++ f).take 255

/-- The `theme` node of scenario 2: `{"gfxmode":"1024x768"}`. -/
def scenario2_theme : VTOY_JSON :=
  json_object (some "theme") [json_string "gfxmode" "1024x768"]

/-- The `theme` node `{"file":"missing.txt","gfxmode":"1024x768"}`. -/
def missing_file_theme : VTOY_JSON :=
  json_object (some "theme") [json_string "file" "missing.txt", json_string "gfxmode" "1024x768"]

/-- The `theme` node `{"file":"/theme/theme.txt","gfxmode":"1024x768"}`. -/
def absolute_file_theme : VTOY_JSON :=
  json_object (some "theme")
    [json_string "file" "/theme/theme.txt", json_string "gfxmode" "1024x768"]

/-- A volume without any file. -/
def no_file : CStr → Bool :=
  fun _ => false

/-- A volume whose only file is `(hd0,1)/theme/theme.txt`. -/
def one_theme_file : CStr → Bool :=
  fun path => decide (path = "(hd0,1)/theme/theme.txt".toList)

/-- The `control` node of scenario 1: `[{"vtoy_test":"1"}]`. -/
def scenario1_control : VTOY_JSON :=
  json_array (some "control") [json_object none [json_string "vtoy_test" "1"]]

/-- The `control` node `[{"vtoy_test":"1"},{}]`: the second element has no member. -/
def empty_object_control : VTOY_JSON :=
  json_array (some "control") [json_object none [json_string "vtoy_test" "1"], json_object none []]

/-- The assignment an element of a `control` array stands for, as the specification words it:
the element is an OBJECT whose first child is a STRING having both a name and a value. -/
def control_assignment (pNode : VTOY_JSON) : Option (CStr × CStr) :=
  if pNode.enDataType = JSON_TYPE_OBJECT then
    match pNode.pstChild.head? with
    | some first =>
      if first.enDataType = JSON_TYPE_STRING then
        match first.pcName, first.pcStrVal with
        | some name, some val => some (name, val)
        | _, _ => none
      else
        none
    | none => none
  else
    none

/-- The environment updated with a list of assignments, in list order. -/
def assign_all (assignments : List (CStr × CStr)) (st : plugin_state) : plugin_state :=
  assignments.foldl (fun s a => ventoy_set_env a.1 a.2 s) st

/-- A `control` section that is an OBJECT, not an ARRAY: `"control": {"vtoy_test":"1"}`. -/
def malformed_control : VTOY_JSON :=
  json_object (some "control") [json_string "vtoy_test" "1"]

/-- The top-level children `"control": {"vtoy_test":"1"}` (malformed: not an ARRAY) followed by
the `auto_install` section of scenario 3. -/
def malformed_control_document : List VTOY_JSON :=
  [malformed_control, scenario3_auto_install]

/-- The `auto_install` node `[{"image": image, "template": "/a.cfg"}]`. -/
def one_image_auto_install (image : CStr) : VTOY_JSON :=
  json_array (some "auto_install")
    [ json_object none
        [ .mk JSON_TYPE_STRING (some "image".toList) (some image) [],
          json_string "template" "/a.cfg" ] ]

/-- A top-level child the specification calls unrecognized: it has a name, and the name is none
of `control`, `theme`, `auto_install`, compared exactly. -/
def unrecognized_section (c : VTOY_JSON) : Bool :=
  match c.pcName with
  | none => false
  | some name =>
    decide (name ≠ "control".toList ∧ name ≠ "theme".toList ∧ name ≠ "auto_install".toList)

/-- The top-level children `"Control": [{"vtoy_test":"1"}]`, `"menu_alias": "x"` and the
`auto_install` section of scenario 3: the first two names are not in the table. -/
def unknown_sections_document : List VTOY_JSON :=
  [ json_array (some "Control") [json_object none [json_string "vtoy_test" "1"]],
    json_string "menu_alias" "x",
    scenario3_auto_install ]

/-! ## `ventoy_cmd_load_plugin` -/

/-- The status `GRUB_ERR_NONE` of `grub/err.h`. -/
def GRUB_ERR_NONE : Int := 0

/-- The resources `ventoy_cmd_load_plugin` acquires, each `true` while it is held: the handle
returned by `ventoy_grub_file_open`, the read buffer `buf`, and the document `json`. -/
structure load_resources where
  file : Bool
  buf : Bool
  json : Bool
deriving DecidableEq, Repr

/-- Modelled from the spec: the external collaborators of the load entry point, none of which
is part of the sources. `ventoy_grub_file_open` gives the content a read of the opened file
yields (`none`: the open fails); `grub_malloc` and `vtoy_json_create` tell whether the call
returns an object; `vtoy_json_parse` gives the parsed document (`none`: a non-zero status);
`ventoy_is_file_exist` tells whether a path names a file. -/
structure load_collaborators where
  ventoy_grub_file_open : CStr → Option CStr
  grub_malloc : Bool
  vtoy_json_create : Bool
  vtoy_json_parse : CStr → Option VTOY_JSON
  ventoy_is_file_exist : CStr → Bool

/-- The command `ventoy_cmd_load_plugin(ctxt, argc, args)`, which reads `args[0]` only. The
result is the returned status, the state, and the resources still held at the return. -/
def ventoy_cmd_load_plugin (sz : install_template_sizes) (w : load_collaborators)
    (args0 : CStr) (st : plugin_state) : Option (Int × plugin_state × load_resources) :=
  let res0 : load_resources := { file := false, buf := false, json := false }
  match w.ventoy_grub_file_open (args0 ++ "/ventoy/ventoy.json".toList) with
  | none => some (GRUB_ERR_NONE, st, res0)
  | some content =>
    let res1 := { res0 with file := true }
    if w.grub_malloc = false then
      let res2 := { res1 with file := false }
      some (1, st, res2)
    else
      let res2 := { res1 with buf := true }
      let res3 := { res2 with file := false }
      if w.vtoy_json_create = false then
        some (1, st, res3)
      else
        let res4 := { res3 with json := true }
        match w.vtoy_json_parse content with
        | none =>
          let res5 := { res4 with buf := false }
          some (1, st, res5)
        | some json =>
          match ventoy_parse_plugin_config sz w.ventoy_is_file_exist json.pstChild args0 st with
          | none => none
          | some r =>
            let res5 := { res4 with json := false }
            let res6 := { res5 with buf := false }
            some (GRUB_ERR_NONE, r.2, res6)

/-- No resource is held. -/
def all_released (res : load_resources) : Bool :=
  !res.file && !res.buf && !res.json

/-- The text of the document of scenario 1: `{"control":[{"vtoy_test":"1"}]}`. -/
def scenario1_text : CStr :=
  "\x7b\"control\":[\x7b\"vtoy_test\":\"1\"\x7d]\x7d".toList

/-- The document of scenario 1: the top-level object with the one member `control`. -/
def scenario1_document : VTOY_JSON :=
  json_object none [scenario1_control]

/-- A stand-in for the parser that knows one text: it gives the document of scenario 1 for
`scenario1_text` and rejects every other buffer. -/
def parse_scenario1_only : CStr → Option VTOY_JSON :=
  fun buf => if buf = scenario1_text then some scenario1_document else none

/-- The collaborators on a volume whose `(hd0,1)/ventoy/ventoy.json` has the given content
(`none`: there is no such file), with allocations that succeed. -/
def volume_with_config (content : Option CStr) : load_collaborators :=
  { ventoy_grub_file_open := fun path =>
      if path = "(hd0,1)/ventoy/ventoy.json".toList then content else none,
    grub_malloc := true,
    vtoy_json_create := true,
    vtoy_json_parse := parse_scenario1_only,
    ventoy_is_file_exist := no_file }

/-- As `volume_with_config`, with a `vtoy_json_create` that returns `NULL`. -/
def volume_without_document (content : Option CStr) : load_collaborators :=
  { volume_with_config content with vtoy_json_create := false }

/-- A malformed configuration: the one character `{`. -/
def malformed_text : CStr :=
  "\x7b".toList

/-- The `control` node `[{}]`: one OBJECT element without members. -/
def empty_object_only_control : VTOY_JSON :=
  json_array (some "control") [json_object none []]

/-- The top-level children of the document `["x"]`: one STRING without a name. -/
def nameless_children : List VTOY_JSON :=
  [.mk JSON_TYPE_STRING none (some "x".toList) []]

/-- A registry entry whose image path and template path both start with `/`. -/
def entry_absolute (e : install_template) : Bool :=
  starts_with_slash e.isopath && starts_with_slash e.templatepath

/-- Every entry of the registry has paths that start with `/`. -/
def registry_absolute (st : plugin_state) : Prop :=
  ∀ e ∈ st.g_install_template_head, entry_absolute e = true

/-- One call into the file: a section handler on a node, the dispatcher on a sibling list, the
load command, or the lookup. -/
inductive plugin_call where
  | control (json : VTOY_JSON) (isodisk : CStr)
  | theme (ventoy_is_file_exist : CStr → Bool) (json : VTOY_JSON) (isodisk : CStr)
  | auto_install (json : VTOY_JSON) (isodisk : CStr)
  | dispatch (ventoy_is_file_exist : CStr → Bool) (json : List VTOY_JSON) (isodisk : CStr)
  | load (w : load_collaborators) (args0 : CStr)
  | lookup (isopath : CStr)

/-- The state after one call (`none`: the call does not return). The lookup only reads the
list, so the state after it is the state before it. -/
def run_call (sz : install_template_sizes) : plugin_call → plugin_state → Option plugin_state
  | .control json isodisk, st =>
    (ventoy_plugin_control_entry json isodisk st).map (fun r => r.2)
  | .theme ventoy_is_file_exist json isodisk, st =>
    (ventoy_plugin_theme_entry ventoy_is_file_exist json isodisk st).map (fun r => r.2)
  | .auto_install json isodisk, st =>
    (ventoy_plugin_auto_install_entry sz json isodisk st).map (fun r => r.2)
  | .dispatch ventoy_is_file_exist json isodisk, st =>
    (ventoy_parse_plugin_config sz ventoy_is_file_exist json isodisk st).map (fun r => r.2)
  | .load w args0, st =>
    (ventoy_cmd_load_plugin sz w args0 st).map (fun r => r.2.1)
  | .lookup isopath, st =>
    match ventoy_plugin_get_install_template isopath st with
    | _ => some st

/-- The state after a sequence of calls, made in list order. -/
def run_calls (sz : install_template_sizes) : List plugin_call → plugin_state → Option plugin_state
  | [], st => some st
  | call :: rest, st =>
    match run_call sz call st with
    | none => none
    | some st1 => run_calls sz rest st1

/-- A sequence of calls: scenario 1 and scenario 3 through the dispatcher, a lookup, the long
image as a section, a theme section, scenario 1 through the load command, and a second
lookup. -/
def sample_calls : List plugin_call :=
  [ .dispatch no_file [scenario1_control, scenario3_auto_install] "(hd0,1)".toList,
    .lookup "/a.iso".toList,
    .auto_install long_image_auto_install "(hd0,1)".toList,
    .theme no_file scenario2_theme "(hd0,1)".toList,
    .load (volume_with_config (some scenario1_text)) "(hd0,1)".toList,
    .lookup long_image ]

/-- The state `sample_calls` ends in from `empty_state` with fields of 256 bytes. -/
def sample_calls_result : plugin_state :=
  { env := fun k =>
      if k = "vtoy_test".toList then some "1".toList
      else if k = "vtoy_gfxmode".toList then some "1024x768".toList
      else if k = "vtoy_test".toList then some "1".toList
      else none,
    g_install_template_head :=
      [{ isopath := '/' :: List.replicate 254 'a', templatepath := "/a.cfg".toList }],
    mm := 15 }

/-! # Theorems -/

/-- `grub_zalloc` on a heap without room returns `NULL` and changes nothing; on a heap with room
it returns a node and takes its room. -/
theorem grub_zalloc_spec (st : plugin_state) :
    (st.mm = 0 → grub_zalloc st = (false, st)) ∧
      (∀ room, st.mm = room + 1 → grub_zalloc st = (true, { st with mm := room })) := by
  unfold grub_zalloc
  constructor
  · intro h
    rw [h]
  · intro room h
    rw [h]

/-- One pass of the loop body: an accepted element is put in front of the list, cut to the
fields, when the heap has room for its node; any other element changes nothing. -/
theorem auto_install_entry_body_spec (sz : install_template_sizes) (pNode : VTOY_JSON)
    (st : plugin_state) :
    (auto_install_entry_body sz pNode st).g_install_template_head =
        (((accepted_element pNode).toList.take st.mm).map (stored_entry sz)) ++
          st.g_install_template_head ∧
      (auto_install_entry_body sz pNode st).env = st.env ∧
      (auto_install_entry_body sz pNode st).mm =
        st.mm - (accepted_element pNode).toList.length := by
  obtain ⟨z0, z1⟩ := grub_zalloc_spec st
  unfold auto_install_entry_body accepted_element
  generalize vtoy_json_get_string_ex pNode.pstChild "image".toList = oi
  generalize vtoy_json_get_string_ex pNode.pstChild "template".toList = ot
  rcases oi with _ | iso
  · simp
  · rcases ot with _ | script
    · by_cases hs1 : starts_with_slash iso = true <;> simp [hs1]
    · by_cases hs1 : starts_with_slash iso = true
      · by_cases hs2 : starts_with_slash script = true
        · cases hm : st.mm with
          | zero =>
            simp only [hs1, hs2, z0 hm, if_true, Bool.and_self, Bool.false_eq_true, if_false]
            simp [hm]
          | succ room =>
            simp only [hs1, hs2, z1 room hm, if_true, Bool.and_self]
            simp [stored_entry]
        · simp [hs1, hs2]
      · simp [hs1]

/-- The loop: the accepted elements the heap has room for, cut to the fields, end up in front
of the list in reverse of array order; the later ones are skipped. -/
theorem auto_install_entry_loop_spec (sz : install_template_sizes) (arr : List VTOY_JSON) :
    ∀ st : plugin_state,
      (auto_install_entry_loop sz arr st).g_install_template_head =
          (((accepted_elements arr).take st.mm).map (stored_entry sz)).reverse ++
            st.g_install_template_head ∧
        (auto_install_entry_loop sz arr st).env = st.env ∧
        (auto_install_entry_loop sz arr st).mm = st.mm - (accepted_elements arr).length := by
  induction arr with
  | nil => intro st; exact ⟨by simp [auto_install_entry_loop, accepted_elements], rfl, rfl⟩
  | cons pNode rest ih =>
    intro st
    obtain ⟨b1, b2, b3⟩ := auto_install_entry_body_spec sz pNode st
    obtain ⟨l1, l2, l3⟩ := ih (auto_install_entry_body sz pNode st)
    have hacc : accepted_elements (pNode :: rest) =
        (accepted_element pNode).toList ++ accepted_elements rest := by
      unfold accepted_elements
      rw [List.filterMap_cons]
      cases accepted_element pNode <;> rfl
    refine ⟨?_, ?_, ?_⟩
    · show (auto_install_entry_loop sz rest (auto_install_entry_body sz pNode st)).g_install_template_head = _
      rw [l1, b1, b3, hacc]
      cases ha : accepted_element pNode with
      | none => simp
      | some e =>
        cases hm : st.mm with
        | zero => simp
        | succ room => simp
    · show (auto_install_entry_loop sz rest (auto_install_entry_body sz pNode st)).env = _
      rw [l2, b2]
    · show (auto_install_entry_loop sz rest (auto_install_entry_body sz pNode st)).mm = _
      rw [l3, b3, hacc, List.length_append]
      omega

/-- The loop that frees the list gives back the room of each node and changes nothing else. -/
theorem auto_install_entry_free_spec (l : List install_template) :
    ∀ st : plugin_state,
      (auto_install_entry_free l st).mm = st.mm + l.length ∧
        (auto_install_entry_free l st).env = st.env ∧
        (auto_install_entry_free l st).g_install_template_head = st.g_install_template_head := by
  induction l with
  | nil => intro st; exact ⟨rfl, rfl, rfl⟩
  | cons node next ih =>
    intro st
    obtain ⟨h1, h2, h3⟩ := ih (grub_free st)
    refine ⟨?_, h2, h3⟩
    show (auto_install_entry_free next (grub_free st)).mm = _
    rw [h1]
    simp only [grub_free, List.length_cons]
    omega

/-- The reset empties the list, gives the room of its nodes back to the heap and keeps the
environment. -/
theorem auto_install_entry_reset_spec (st : plugin_state) :
    (auto_install_entry_reset st).g_install_template_head = [] ∧
      (auto_install_entry_reset st).env = st.env ∧
      (auto_install_entry_reset st).mm = room_after_free st := by
  unfold auto_install_entry_reset room_after_free
  obtain ⟨h1, h2, _⟩ := auto_install_entry_free_spec st.g_install_template_head st
  by_cases h : st.g_install_template_head = []
  · rw [if_neg (not_not.mpr h)]
    simp [h]
  · rw [if_pos h]
    exact ⟨rfl, h2, h1⟩

/-- The lookup loop is a search for the first node with the given image path. -/
theorem get_install_template_loop_eq_find (p : CStr) (l : List install_template) :
    get_install_template_loop p l =
      (l.find? (fun n => decide (n.isopath = p))).map install_template.templatepath := by
  induction l with
  | nil => rfl
  | cons n rest ih =>
    by_cases h : n.isopath = p
    · simp [get_install_template_loop, grub_strcmp_is0, h]
    · simp [get_install_template_loop, grub_strcmp_is0, h, ih]

/-- The first match of a reversed list is the last match of the list. -/
theorem find_reverse_eq_getLast_filter {α : Type} (q : α → Bool) (l : List α) :
    l.reverse.find? q = (l.filter q).getLast? := by
  induction l with
  | nil => rfl
  | cons a rest ih =>
    rw [List.reverse_cons, List.find?_append, ih, List.filter_cons]
    by_cases h : q a = true
    · rw [if_pos h, List.getLast?_cons]
      cases (List.filter q rest).getLast? <;> simp [List.find?, h]
    · rw [if_neg h]
      cases (List.filter q rest).getLast? <;> simp [List.find?, h]

/-- C1, as amended: the registry after the handler holds the accepted elements, each string cut
to its field, in reverse of array order, when the allocations succeed (the heap has room for
them once the prior nodes are freed); and holds them as they are when they all fit their
fields. -/
theorem auto_install_entry_registry (sz : install_template_sizes) (json : VTOY_JSON)
    (isodisk : CStr) (st : plugin_state) (harr : json.enDataType = JSON_TYPE_ARRAY)
    (hroom : (accepted_elements json.pstChild).length ≤ room_after_free st) :
    ∃ st1, ventoy_plugin_auto_install_entry sz json isodisk st = some (0, st1) ∧
      st1.g_install_template_head =
        ((accepted_elements json.pstChild).map (stored_entry sz)).reverse ∧
      ((∀ e ∈ accepted_elements json.pstChild,
          e.1.length < sz.isopath ∧ e.2.length < sz.templatepath) →
        st1.g_install_template_head =
          ((accepted_elements json.pstChild).map plain_entry).reverse) := by
  have hr := auto_install_entry_reset_spec st
  obtain ⟨l1, _, _⟩ := auto_install_entry_loop_spec sz json.pstChild (auto_install_entry_reset st)
  rw [hr.1, List.append_nil, hr.2.2, List.take_of_length_le hroom] at l1
  refine ⟨_, ?_, l1, ?_⟩
  · simp [ventoy_plugin_auto_install_entry, harr]
  · intro hfit
    rw [l1]
    congr 1
    apply List.map_congr_left
    intro e he
    obtain ⟨h1, h2⟩ := hfit e he
    simp only [stored_entry, plain_entry, grub_snprintf]
    rw [List.take_of_length_le (by omega), List.take_of_length_le (by omega)]

/-- C1, witness: scenario 3 with fields of 256 bytes. -/
theorem auto_install_entry_registry_witness :
    scenario3_auto_install.enDataType = JSON_TYPE_ARRAY ∧
      (accepted_elements scenario3_auto_install.pstChild).length ≤
        room_after_free empty_state ∧
      ∃ st1, ventoy_plugin_auto_install_entry sizes_256 scenario3_auto_install [] empty_state =
          some (0, st1) ∧
        st1.g_install_template_head =
          ((accepted_elements scenario3_auto_install.pstChild).map
            (stored_entry sizes_256)).reverse ∧
        ((∀ e ∈ accepted_elements scenario3_auto_install.pstChild,
            e.1.length < sizes_256.isopath ∧ e.2.length < sizes_256.templatepath) →
          st1.g_install_template_head =
            ((accepted_elements scenario3_auto_install.pstChild).map plain_entry).reverse) :=
  ⟨rfl, by decide,
    auto_install_entry_registry sizes_256 scenario3_auto_install [] empty_state rfl
      (by decide)⟩

set_option maxRecDepth 100000 in
/-- C1, counterexample: with fields of 256 bytes and an accepted element whose image path has
300 characters, the registry does not hold the pair (image, template): the image path is cut. -/
theorem auto_install_entry_registry_counterexample :
    long_image_auto_install.enDataType = JSON_TYPE_ARRAY ∧
      accepted_elements long_image_auto_install.pstChild = [(long_image, "/a.cfg".toList)] ∧
      (ventoy_plugin_auto_install_entry sizes_256 long_image_auto_install [] empty_state).map
          (fun r => r.2.g_install_template_head) =
        some [{ isopath := '/' :: List.replicate 254 'a', templatepath := "/a.cfg".toList }] ∧
      (ventoy_plugin_auto_install_entry sizes_256 long_image_auto_install [] empty_state).map
          (fun r => r.2.g_install_template_head) ≠
        some ((accepted_elements long_image_auto_install.pstChild).map plain_entry).reverse := by
  refine ⟨rfl, ?_, ?_, ?_⟩ <;> decide

/-- C2: the lookup returns the template path of the first entry, in list order, whose image path
equals the argument, and returns `NULL` exactly when no entry has that image path. -/
theorem get_install_template_first_match (isopath : CStr) (st : plugin_state) :
    (∀ t, ventoy_plugin_get_install_template isopath st = some t ↔
        ∃ before node after, st.g_install_template_head = before ++ node :: after ∧
          (∀ n ∈ before, n.isopath ≠ isopath) ∧ node.isopath = isopath ∧
          node.templatepath = t) ∧
      (ventoy_plugin_get_install_template isopath st = none ↔
        ∀ n ∈ st.g_install_template_head, n.isopath ≠ isopath) := by
  unfold ventoy_plugin_get_install_template
  generalize st.g_install_template_head = l
  induction l with
  | nil =>
    refine ⟨fun t => ⟨fun h => by simp [get_install_template_loop] at h, ?_⟩, ?_⟩
    · rintro ⟨before, node, after, h, _⟩
      simp at h
    · simp [get_install_template_loop]
  | cons n rest ih =>
    obtain ⟨ih1, ih2⟩ := ih
    by_cases hn : n.isopath = isopath
    · have e : get_install_template_loop isopath (n :: rest) = some n.templatepath := by
        simp [get_install_template_loop, grub_strcmp_is0, hn]
      rw [e]
      refine ⟨fun t => ⟨fun h => ?_, ?_⟩, ?_⟩
      · exact ⟨[], n, rest, rfl, by simp, hn, Option.some.inj h⟩
      · rintro ⟨before, node, after, h, hb, _, ht⟩
        cases before with
        | nil =>
          simp only [List.nil_append, List.cons.injEq] at h
          rw [h.1, ht]
        | cons b bs =>
          simp only [List.cons_append, List.cons.injEq] at h
          exact absurd (h.1 ▸ hn) (hb b (List.mem_cons_self b bs))
      · simp [hn]
    · have e : get_install_template_loop isopath (n :: rest) =
          get_install_template_loop isopath rest := by
        simp [get_install_template_loop, grub_strcmp_is0, hn]
      rw [e]
      refine ⟨fun t => ?_, ?_⟩
      · rw [ih1 t]
        constructor
        · rintro ⟨before, node, after, h, hb, hnode, ht⟩
          refine ⟨n :: before, node, after, by simp [h], ?_, hnode, ht⟩
          intro m hm
          rcases List.mem_cons.mp hm with rfl | hm
          · exact hn
          · exact hb m hm
        · rintro ⟨before, node, after, h, hb, hnode, ht⟩
          cases before with
          | nil =>
            simp only [List.nil_append, List.cons.injEq] at h
            exact absurd (h.1 ▸ hnode) hn
          | cons b bs =>
            simp only [List.cons_append, List.cons.injEq] at h
            exact ⟨bs, node, after, h.2, fun m hm => hb m (List.mem_cons_of_mem b hm), hnode, ht⟩
      · rw [ih2]
        simp [hn]

/-- The handler on an ARRAY: it returns 0, the registry holds the accepted elements the heap has
room for once the prior nodes are freed, cut to the fields, in reverse of array order, the
environment is unchanged and the heap has lost the room of the new nodes. -/
theorem auto_install_entry_spec (sz : install_template_sizes) (json : VTOY_JSON)
    (isodisk : CStr) (st : plugin_state) (harr : json.enDataType = JSON_TYPE_ARRAY) :
    ∃ st1, ventoy_plugin_auto_install_entry sz json isodisk st = some (0, st1) ∧
      st1.g_install_template_head =
        (((accepted_elements json.pstChild).take (room_after_free st)).map
          (stored_entry sz)).reverse ∧
      st1.env = st.env ∧
      st1.mm = room_after_free st - (accepted_elements json.pstChild).length := by
  have hr := auto_install_entry_reset_spec st
  obtain ⟨l1, l2, l3⟩ := auto_install_entry_loop_spec sz json.pstChild
    (auto_install_entry_reset st)
  rw [hr.1, List.append_nil, hr.2.2] at l1
  rw [hr.2.2] at l3
  exact ⟨_, by simp [ventoy_plugin_auto_install_entry, harr], l1, l2.trans hr.2.1, l3⟩

/-- The lookup in the list built from accepted pairs finds the last pair, in array order, whose
image path is stored as `p`. -/
theorem get_install_template_stored (sz : install_template_sizes) (p : CStr)
    (l : List (CStr × CStr)) :
    get_install_template_loop p (l.map (stored_entry sz)).reverse =
      ((l.filter (fun e => decide (grub_snprintf sz.isopath e.1 = p))).getLast?).map
        (fun e => grub_snprintf sz.templatepath e.2) := by
  rw [get_install_template_loop_eq_find, ← List.map_reverse, List.find?_map,
    find_reverse_eq_getLast_filter, Option.map_map]
  rfl

/-- C3, as amended: when the allocations succeed (the heap has room for the accepted elements
once the prior nodes are freed), the lookup of `p` after the handler returns the template path,
cut to its field, of the last accepted element whose image path, cut to its field, equals `p`;
it returns `NULL` exactly when no accepted element has such an image path. -/
theorem auto_install_then_lookup (sz : install_template_sizes) (json : VTOY_JSON)
    (isodisk : CStr) (st : plugin_state) (harr : json.enDataType = JSON_TYPE_ARRAY)
    (hroom : (accepted_elements json.pstChild).length ≤ room_after_free st) :
    ∃ st1, ventoy_plugin_auto_install_entry sz json isodisk st = some (0, st1) ∧
      ∀ p, ventoy_plugin_get_install_template p st1 =
          (last_accepted sz p json.pstChild).map (fun e => grub_snprintf sz.templatepath e.2) ∧
        (ventoy_plugin_get_install_template p st1 = none ↔
          ∀ e ∈ accepted_elements json.pstChild, grub_snprintf sz.isopath e.1 ≠ p) := by
  obtain ⟨st1, h1, h2, _, _⟩ := auto_install_entry_spec sz json isodisk st harr
  rw [List.take_of_length_le hroom] at h2
  refine ⟨st1, h1, fun p => ?_⟩
  have key : ventoy_plugin_get_install_template p st1 =
      (last_accepted sz p json.pstChild).map (fun e => grub_snprintf sz.templatepath e.2) := by
    unfold ventoy_plugin_get_install_template last_accepted
    rw [h2, get_install_template_stored]
  refine ⟨key, ?_⟩
  rw [key, Option.map_eq_none', last_accepted, List.getLast?_eq_none_iff,
    List.filter_eq_nil_iff]
  simp

/-- C3, witness: scenario 3 with fields of 256 bytes, and its three lookups. -/
theorem auto_install_then_lookup_witness :
    scenario3_auto_install.enDataType = JSON_TYPE_ARRAY ∧
      (accepted_elements scenario3_auto_install.pstChild).length ≤
        room_after_free empty_state ∧
      (∃ st1, ventoy_plugin_auto_install_entry sizes_256 scenario3_auto_install [] empty_state =
          some (0, st1) ∧
        ∀ p, ventoy_plugin_get_install_template p st1 =
            (last_accepted sizes_256 p scenario3_auto_install.pstChild).map
              (fun e => grub_snprintf sizes_256.templatepath e.2) ∧
          (ventoy_plugin_get_install_template p st1 = none ↔
            ∀ e ∈ accepted_elements scenario3_auto_install.pstChild,
              grub_snprintf sizes_256.isopath e.1 ≠ p)) ∧
      (ventoy_plugin_auto_install_entry sizes_256 scenario3_auto_install [] empty_state).map
          (fun r => (ventoy_plugin_get_install_template "/a.iso".toList r.2,
            ventoy_plugin_get_install_template "/b.iso".toList r.2,
            ventoy_plugin_get_install_template "/c.iso".toList r.2)) =
        some (some "/a.cfg".toList, some "/b.cfg".toList, none) :=
  ⟨rfl, by decide,
    auto_install_then_lookup sizes_256 scenario3_auto_install [] empty_state rfl (by decide),
    by decide⟩

set_option maxRecDepth 100000 in
/-- C3, counterexample: with fields of 256 bytes, the only element is accepted with an image
path of 300 characters, and the lookup of that image path returns `NULL`, not its template. -/
theorem auto_install_then_lookup_counterexample :
    long_image_auto_install.enDataType = JSON_TYPE_ARRAY ∧
      last_accepted_plain long_image long_image_auto_install.pstChild =
        some (long_image, "/a.cfg".toList) ∧
      (ventoy_plugin_auto_install_entry sizes_256 long_image_auto_install [] empty_state).map
          (fun r => ventoy_plugin_get_install_template long_image r.2) = some none := by
  refine ⟨rfl, ?_, ?_⟩ <;> decide

/-- An element that is not accepted leaves the state as it is, whatever room the heap has. -/
theorem auto_install_entry_body_skip (sz : install_template_sizes) (pNode : VTOY_JSON)
    (st : plugin_state) (h : accepted_element pNode = none) :
    auto_install_entry_body sz pNode st = st := by
  unfold accepted_element at h
  unfold auto_install_entry_body
  generalize vtoy_json_get_string_ex pNode.pstChild "image".toList = oi at h
  generalize vtoy_json_get_string_ex pNode.pstChild "template".toList = ot at h
  rcases oi with _ | iso
  · rfl
  · rcases ot with _ | script
    · by_cases hs1 : starts_with_slash iso = true <;> simp [hs1]
    · by_cases hs1 : starts_with_slash iso = true
      · by_cases hs2 : starts_with_slash script = true
        · simp [hs1, hs2] at h
        · simp [hs1, hs2]
      · simp [hs1]

/-- An array without an accepted element leaves the state as it is. -/
theorem auto_install_entry_loop_skip (sz : install_template_sizes) (arr : List VTOY_JSON)
    (st : plugin_state) (h : accepted_elements arr = []) :
    auto_install_entry_loop sz arr st = st := by
  induction arr with
  | nil => rfl
  | cons pNode rest ih =>
    unfold accepted_elements at h
    rw [List.filterMap_cons] at h
    cases ha : accepted_element pNode with
    | none =>
      rw [ha] at h
      show auto_install_entry_loop sz rest (auto_install_entry_body sz pNode st) = st
      rw [auto_install_entry_body_skip sz pNode st ha]
      exact ih h
    | some e =>
      rw [ha] at h
      cases h

/-- C4, as amended: on an ARRAY no entry of the prior registry survives: the registry after the
handler holds the accepted elements the heap has room for once the prior nodes are freed, cut to
the fields, in reverse of array order. From two prior states the handler ends in the same
registry when the heap has the same room once the prior nodes are freed, and when the
allocations succeed in both runs. An array without an accepted element ends in the empty
registry, where every lookup returns `NULL`. -/
theorem auto_install_entry_full_replace (sz : install_template_sizes) (json : VTOY_JSON)
    (isodisk : CStr) (sa sb : plugin_state) (harr : json.enDataType = JSON_TYPE_ARRAY) :
    ∃ a1 b1, ventoy_plugin_auto_install_entry sz json isodisk sa = some (0, a1) ∧
      ventoy_plugin_auto_install_entry sz json isodisk sb = some (0, b1) ∧
      a1.g_install_template_head =
        (((accepted_elements json.pstChild).take (room_after_free sa)).map
          (stored_entry sz)).reverse ∧
      (room_after_free sa = room_after_free sb →
        a1.g_install_template_head = b1.g_install_template_head) ∧
      ((accepted_elements json.pstChild).length ≤ room_after_free sa →
        (accepted_elements json.pstChild).length ≤ room_after_free sb →
        a1.g_install_template_head = b1.g_install_template_head) ∧
      (accepted_elements json.pstChild = [] →
        a1.g_install_template_head = [] ∧
          ∀ p, ventoy_plugin_get_install_template p a1 = none) := by
  obtain ⟨a1, ea, ha, _, _⟩ := auto_install_entry_spec sz json isodisk sa harr
  obtain ⟨b1, eb, hb, _, _⟩ := auto_install_entry_spec sz json isodisk sb harr
  refine ⟨a1, b1, ea, eb, ha, fun hroom => ?_, fun hra hrb => ?_, fun hacc => ?_⟩
  · rw [ha, hb, hroom]
  · rw [ha, hb, List.take_of_length_le hra, List.take_of_length_le hrb]
  · have hnil : a1.g_install_template_head = [] := by
      rw [ha, hacc]
      simp
    refine ⟨hnil, fun p => ?_⟩
    unfold ventoy_plugin_get_install_template
    rw [hnil]
    rfl

/-- C4, witness: scenario 3 from the registry of scenario 3 on a heap without room, and from
the registry `old_registry` on a heap with room for one node: both end in the registry of
scenario 3; and scenario 5, the empty array after scenario 3, with the two lookups. -/
theorem auto_install_entry_full_replace_witness :
    scenario3_auto_install.enDataType = JSON_TYPE_ARRAY ∧
      (∃ a1 b1, ventoy_plugin_auto_install_entry sizes_256 scenario3_auto_install []
            (full_heap_state scenario3_registry) = some (0, a1) ∧
        ventoy_plugin_auto_install_entry sizes_256 scenario3_auto_install []
            { env := fun _ => none, g_install_template_head := old_registry, mm := 1 } =
          some (0, b1) ∧
        a1.g_install_template_head =
          (((accepted_elements scenario3_auto_install.pstChild).take
            (room_after_free (full_heap_state scenario3_registry))).map
              (stored_entry sizes_256)).reverse ∧
        (room_after_free (full_heap_state scenario3_registry) =
            room_after_free
              { env := fun _ => none, g_install_template_head := old_registry, mm := 1 } →
          a1.g_install_template_head = b1.g_install_template_head) ∧
        ((accepted_elements scenario3_auto_install.pstChild).length ≤
            room_after_free (full_heap_state scenario3_registry) →
          (accepted_elements scenario3_auto_install.pstChild).length ≤
            room_after_free
              { env := fun _ => none, g_install_template_head := old_registry, mm := 1 } →
          a1.g_install_template_head = b1.g_install_template_head) ∧
        (accepted_elements scenario3_auto_install.pstChild = [] →
          a1.g_install_template_head = [] ∧
            ∀ p, ventoy_plugin_get_install_template p a1 = none)) ∧
      room_after_free (full_heap_state scenario3_registry) =
        room_after_free
          { env := fun _ => none, g_install_template_head := old_registry, mm := 1 } ∧
      (ventoy_plugin_auto_install_entry sizes_256 scenario3_auto_install []
          (full_heap_state scenario3_registry)).map (fun r => r.2.g_install_template_head) =
        some scenario3_registry ∧
      (ventoy_plugin_auto_install_entry sizes_256 scenario3_auto_install []
          { env := fun _ => none, g_install_template_head := old_registry, mm := 1 }).map
          (fun r => r.2.g_install_template_head) = some scenario3_registry ∧
      accepted_elements scenario5_auto_install.pstChild = [] ∧
      ventoy_plugin_get_install_template "/a.iso".toList (full_heap_state scenario3_registry) =
        some "/a.cfg".toList ∧
      (ventoy_plugin_auto_install_entry sizes_256 scenario5_auto_install []
          (full_heap_state scenario3_registry)).map
          (fun r => (r.2.g_install_template_head,
            ventoy_plugin_get_install_template "/a.iso".toList r.2,
            ventoy_plugin_get_install_template "/b.iso".toList r.2)) = some ([], none, none) :=
  ⟨rfl, auto_install_entry_full_replace sizes_256 scenario3_auto_install []
      (full_heap_state scenario3_registry)
      { env := fun _ => none, g_install_template_head := old_registry, mm := 1 } rfl,
    by decide, by decide, by decide, rfl, by decide, by decide⟩

/-- C4, counterexample: two states that differ in the prior registry only, on a heap without
room. From the registry of scenario 3 the two freed nodes make room for the two elements of
scenario 3; from the empty registry both allocations fail and the registry stays empty. -/
theorem auto_install_entry_full_replace_counterexample :
    scenario3_auto_install.enDataType = JSON_TYPE_ARRAY ∧
      (ventoy_plugin_auto_install_entry sizes_256 scenario3_auto_install []
          (full_heap_state scenario3_registry)).map (fun r => r.2.g_install_template_head) =
        some scenario3_registry ∧
      (ventoy_plugin_auto_install_entry sizes_256 scenario3_auto_install []
          (full_heap_state [])).map (fun r => r.2.g_install_template_head) = some [] := by
  refine ⟨rfl, ?_, ?_⟩ <;> decide

/-- C5: running the handler twice in succession leaves the same entries, hence the same lookup
results, the same environment and the same heap as running it once, from every state. -/
theorem auto_install_entry_idempotent (sz : install_template_sizes) (json : VTOY_JSON)
    (isodisk : CStr) (st : plugin_state) :
    ∃ st1 st2, ventoy_plugin_auto_install_entry sz json isodisk st = some (0, st1) ∧
      auto_install_entry_twice sz json isodisk st = some (0, st2) ∧
      st2.g_install_template_head = st1.g_install_template_head ∧
      (∀ p, ventoy_plugin_get_install_template p st2 =
        ventoy_plugin_get_install_template p st1) ∧
      st2.env = st1.env ∧ st2.mm = st1.mm := by
  by_cases harr : json.enDataType = JSON_TYPE_ARRAY
  · obtain ⟨st1, h1, r1, _, m1⟩ := auto_install_entry_spec sz json isodisk st harr
    obtain ⟨st2, h2, r2, e2, m2⟩ := auto_install_entry_spec sz json isodisk st1 harr
    have hroom : room_after_free st1 = room_after_free st := by
      unfold room_after_free
      rw [m1, r1]
      simp only [List.length_reverse, List.length_map, List.length_take, room_after_free]
      omega
    rw [hroom] at r2 m2
    refine ⟨st1, st2, h1, ?_, r2.trans r1.symm, fun p => ?_, e2, m2.trans m1.symm⟩
    · simp [auto_install_entry_twice, h1, h2]
    · unfold ventoy_plugin_get_install_template
      rw [r2, r1]
  · have e : ∀ s, ventoy_plugin_auto_install_entry sz json isodisk s = some (0, s) := by
      intro s
      simp [ventoy_plugin_auto_install_entry, harr]
    exact ⟨st, st, e st, by simp [auto_install_entry_twice, e], rfl, fun _ => rfl, rfl, rfl⟩

/-- C5, on scenario 3 from the registry `old_registry` on a heap without room: the one freed
node makes room for the first element only, after one run as after two. -/
theorem auto_install_entry_idempotent_witness :
    (∃ st1 st2, ventoy_plugin_auto_install_entry sizes_256 scenario3_auto_install []
            (full_heap_state old_registry) = some (0, st1) ∧
        auto_install_entry_twice sizes_256 scenario3_auto_install []
            (full_heap_state old_registry) = some (0, st2) ∧
        st2.g_install_template_head = st1.g_install_template_head ∧
        (∀ p, ventoy_plugin_get_install_template p st2 =
          ventoy_plugin_get_install_template p st1) ∧
        st2.env = st1.env ∧ st2.mm = st1.mm) ∧
      (ventoy_plugin_auto_install_entry sizes_256 scenario3_auto_install []
          (full_heap_state old_registry)).map (fun r => r.2.g_install_template_head) =
        some [{ isopath := "/a.iso".toList, templatepath := "/a.cfg".toList }] ∧
      (auto_install_entry_twice sizes_256 scenario3_auto_install []
          (full_heap_state old_registry)).map (fun r => r.2.g_install_template_head) =
        some [{ isopath := "/a.iso".toList, templatepath := "/a.cfg".toList }] :=
  ⟨auto_install_entry_idempotent sizes_256 scenario3_auto_install []
      (full_heap_state old_registry), by decide, by decide⟩

/-- The path built in `filepath` is the one the specification describes. -/
theorem theme_entry_filepath_eq (b f : CStr) :
    theme_entry_filepath b f = resolved_theme_path b f := by
  unfold theme_entry_filepath resolved_theme_path grub_snprintf starts_with_slash
  cases f with
  | nil => simp
  | cons c rest =>
    by_cases hc : c = '/'
    · subst hc
      simp
    · simp [hc]

/-- C6, the code at the failing input `{"file":"missing.txt","gfxmode":"1024x768"}` on a volume
without the theme file: `gfxmode` is present, and after the handler `vtoy_gfxmode` is still
unset. -/
theorem theme_entry_gfxmode_skipped :
    vtoy_json_get_string_ex missing_file_theme.pstChild "gfxmode".toList =
        some "1024x768".toList ∧
      (ventoy_plugin_theme_entry no_file missing_file_theme "(hd0,1)".toList empty_state).map
          (fun r => (r.1, r.2.env "vtoy_gfxmode".toList)) = some (0, none) := by
  constructor <;> decide

/-- Scenario 2: the object with the one member `gfxmode` sets `vtoy_gfxmode` and leaves
`vtoy_theme` unset, on every volume and under every base path. -/
theorem theme_entry_scenario2 (ventoy_is_file_exist : CStr → Bool) (isodisk : CStr) :
    (ventoy_plugin_theme_entry ventoy_is_file_exist scenario2_theme isodisk empty_state).map
        (fun r => (r.1, r.2.env "vtoy_gfxmode".toList, r.2.env "vtoy_theme".toList)) =
      some (0, some "1024x768".toList, none) := by
  rfl

/-- When `gfxmode` is present and `file` is absent or names an existing file, the handler
returns 0 and `vtoy_gfxmode` holds the value of `gfxmode`. -/
theorem theme_entry_gfxmode_set (ventoy_is_file_exist : CStr → Bool) (json : VTOY_JSON)
    (isodisk g : CStr) (st : plugin_state)
    (hg : vtoy_json_get_string_ex json.pstChild "gfxmode".toList = some g)
    (hf : ∀ f, vtoy_json_get_string_ex json.pstChild "file".toList = some f →
      ventoy_is_file_exist (theme_entry_filepath isodisk f) = true) :
    ∃ st1, ventoy_plugin_theme_entry ventoy_is_file_exist json isodisk st = some (0, st1) ∧
      st1.env "vtoy_gfxmode".toList = some g := by
  unfold ventoy_plugin_theme_entry theme_entry_gfxmode
  rw [hg]
  cases hfile : vtoy_json_get_string_ex json.pstChild "file".toList with
  | none => exact ⟨_, rfl, by simp [grub_env_set]⟩
  | some f =>
    have := hf f hfile
    simp only [this]
    exact ⟨_, rfl, by simp [grub_env_set]⟩

/-- The second half of the theme handler returns 0 and changes neither `vtoy_theme` nor the
registry nor the heap. -/
theorem theme_entry_gfxmode_keeps_theme (json : VTOY_JSON) (st : plugin_state) :
    ∃ st1, theme_entry_gfxmode json st = some (0, st1) ∧
      st1.env "vtoy_theme".toList = st.env "vtoy_theme".toList ∧
      st1.g_install_template_head = st.g_install_template_head ∧ st1.mm = st.mm := by
  unfold theme_entry_gfxmode
  cases vtoy_json_get_string_ex json.pstChild "gfxmode".toList with
  | none => exact ⟨st, rfl, rfl, rfl, rfl⟩
  | some g =>
    refine ⟨_, rfl, ?_, rfl, rfl⟩
    have hne : ¬ ("vtoy_theme".toList = "vtoy_gfxmode".toList) := by decide
    show (if "vtoy_theme".toList = "vtoy_gfxmode".toList then some g
      else st.env "vtoy_theme".toList) = _
    rw [if_neg hne]

/-- C8: for a theme object with the `file` string `f`, the path the handler builds is
`isodisk ++ f` when `f` starts with `/` and `isodisk ++ "/ventoy/" ++ f` otherwise, cut to the
255 characters the buffer holds; when that path exists, the handler returns 0 and `vtoy_theme`
equals it. -/
theorem theme_entry_sets_theme (ventoy_is_file_exist : CStr → Bool) (json : VTOY_JSON)
    (isodisk f : CStr) (st : plugin_state)
    (hf : vtoy_json_get_string_ex json.pstChild "file".toList = some f) :
    theme_entry_filepath isodisk f = resolved_theme_path isodisk f ∧
      (resolved_theme_path isodisk f).length ≤ 255 ∧
      (ventoy_is_file_exist (resolved_theme_path isodisk f) = true →
        ∃ st1, ventoy_plugin_theme_entry ventoy_is_file_exist json isodisk st = some (0, st1) ∧
          st1.env "vtoy_theme".toList = some (resolved_theme_path isodisk f)) := by
  refine ⟨theme_entry_filepath_eq isodisk f, ?_, fun hex => ?_⟩
  · unfold resolved_theme_path
    split <;> exact List.length_take_le 255 _
  · unfold ventoy_plugin_theme_entry
    rw [hf]
    simp only [theme_entry_filepath_eq, hex]
    obtain ⟨st1, h1, h2, _⟩ := theme_entry_gfxmode_keeps_theme json
      (grub_env_set "vtoy_theme".toList (resolved_theme_path isodisk f) st)
    refine ⟨st1, by simpa using h1, ?_⟩
    rw [h2]
    simp [grub_env_set]

/-- C8, witness: `{"file":"/theme/theme.txt","gfxmode":"1024x768"}` under the base path
`(hd0,1)`, on a volume holding `(hd0,1)/theme/theme.txt`. -/
theorem theme_entry_sets_theme_witness :
    vtoy_json_get_string_ex absolute_file_theme.pstChild "file".toList =
        some "/theme/theme.txt".toList ∧
      resolved_theme_path "(hd0,1)".toList "/theme/theme.txt".toList =
        "(hd0,1)/theme/theme.txt".toList ∧
      (theme_entry_filepath "(hd0,1)".toList "/theme/theme.txt".toList =
          resolved_theme_path "(hd0,1)".toList "/theme/theme.txt".toList ∧
        (resolved_theme_path "(hd0,1)".toList "/theme/theme.txt".toList).length ≤ 255 ∧
        (one_theme_file (resolved_theme_path "(hd0,1)".toList "/theme/theme.txt".toList) =
            true →
          ∃ st1, ventoy_plugin_theme_entry one_theme_file absolute_file_theme
                "(hd0,1)".toList empty_state = some (0, st1) ∧
            st1.env "vtoy_theme".toList =
              some (resolved_theme_path "(hd0,1)".toList "/theme/theme.txt".toList))) ∧
      one_theme_file (resolved_theme_path "(hd0,1)".toList "/theme/theme.txt".toList) = true :=
  ⟨by decide, by decide,
    theme_entry_sets_theme one_theme_file absolute_file_theme "(hd0,1)".toList
      "/theme/theme.txt".toList empty_state (by decide), by decide⟩

/-- One pass of the loop body of the control handler on an element that is not an OBJECT
without children: the assignment the element stands for, if any, is made. -/
theorem control_entry_body_spec (pNode : VTOY_JSON) (st : plugin_state)
    (h : pNode.enDataType = JSON_TYPE_OBJECT → pNode.pstChild ≠ []) :
    control_entry_body pNode st =
      some (assign_all (control_assignment pNode).toList st) := by
  unfold control_entry_body control_assignment
  by_cases ho : pNode.enDataType = JSON_TYPE_OBJECT
  · have hc := h ho
    rw [if_pos ho, if_pos ho]
    cases hch : pNode.pstChild with
    | nil => exact absurd hch hc
    | cons pChild rest =>
      simp only [List.head?_cons]
      by_cases hs : pChild.enDataType = JSON_TYPE_STRING
      · rw [if_pos hs, if_pos hs]
        cases pChild.pcName <;> cases pChild.pcStrVal <;> rfl
      · rw [if_neg hs, if_neg hs]
        rfl
  · rw [if_neg ho, if_neg ho]
    rfl

/-- Assignments of a concatenation are made one list after the other. -/
theorem assign_all_append (a b : List (CStr × CStr)) (st : plugin_state) :
    assign_all (a ++ b) st = assign_all b (assign_all a st) := by
  unfold assign_all
  rw [List.foldl_append]

/-- The loop of the control handler on an array in which every OBJECT has a child: the
assignments of the elements are made in array order. -/
theorem control_entry_loop_spec (arr : List VTOY_JSON) :
    ∀ st : plugin_state,
      (∀ e ∈ arr, e.enDataType = JSON_TYPE_OBJECT → e.pstChild ≠ []) →
      control_entry_loop arr st = some (assign_all (arr.filterMap control_assignment) st) := by
  induction arr with
  | nil => intro st _; rfl
  | cons pNode rest ih =>
    intro st h
    have hb := control_entry_body_spec pNode st (h pNode (List.mem_cons_self pNode rest))
    have hr := ih (assign_all (control_assignment pNode).toList st)
      (fun e he => h e (List.mem_cons_of_mem pNode he))
    simp only [control_entry_loop, hb, hr]
    rw [← assign_all_append]
    cases ha : control_assignment pNode <;> simp [List.filterMap_cons, ha]

/-- The control handler on an ARRAY in which every OBJECT element has a child returns 0 and
leaves the environment updated, in array order, with the assignment of each element that is an
OBJECT whose first child is a STRING with a name and a value. -/
theorem control_entry_spec (json : VTOY_JSON) (isodisk : CStr) (st : plugin_state)
    (harr : json.enDataType = JSON_TYPE_ARRAY)
    (h : ∀ e ∈ json.pstChild, e.enDataType = JSON_TYPE_OBJECT → e.pstChild ≠ []) :
    ventoy_plugin_control_entry json isodisk st =
      some (0, assign_all (json.pstChild.filterMap control_assignment) st) := by
  simp [ventoy_plugin_control_entry, harr, control_entry_loop_spec json.pstChild st h]

/-- Scenario 1: the array with the one element `vtoy_test: 1` sets `vtoy_test` to `1`. -/
theorem control_entry_scenario1 :
    (ventoy_plugin_control_entry scenario1_control [] empty_state).map
        (fun r => (r.1, r.2.env "vtoy_test".toList)) = some (0, some "1".toList) := by
  decide

/-- C9, the code at the failing input `[{"vtoy_test":"1"},{}]`: the array stands for the one
assignment `vtoy_test := 1`, and the handler does not return: at the second element it reads
`pChild->enDataType` through the null `pstChild`. -/
theorem control_entry_empty_object :
    empty_object_control.enDataType = JSON_TYPE_ARRAY ∧
      empty_object_control.pstChild.filterMap control_assignment =
        [("vtoy_test".toList, "1".toList)] ∧
      (ventoy_plugin_control_entry empty_object_control [] empty_state).isSome = false := by
  refine ⟨rfl, ?_, ?_⟩ <;> decide

/-- The table scan for a `control` or `auto_install` child that is not an ARRAY runs the
handler, which returns at once: the state is unchanged. -/
theorem parse_plugin_config_scan_malformed (sz : install_template_sizes)
    (ventoy_is_file_exist : CStr → Bool) (c : VTOY_JSON) (isodisk : CStr) (st : plugin_state)
    (hname : c.pcName = some "control".toList ∨ c.pcName = some "auto_install".toList)
    (htype : c.enDataType ≠ JSON_TYPE_ARRAY) :
    parse_plugin_config_scan (g_plugin_entries sz ventoy_is_file_exist) c isodisk st =
      some st := by
  rcases hname with hn | hn
  · simp [g_plugin_entries, parse_plugin_config_scan, hn, grub_strcmp_is0,
      ventoy_plugin_control_entry, htype]
  · have h1 : ¬ ("control".toList = "auto_install".toList) := by decide
    have h2 : ¬ ("theme".toList = "auto_install".toList) := by decide
    simp only [g_plugin_entries, parse_plugin_config_scan, hn, grub_strcmp_is0,
      ventoy_plugin_auto_install_entry, h1, h2, decide_False, decide_True]
    simp [htype]

/-- A child whose dispatch never changes the state can be removed from the sibling list. -/
theorem parse_plugin_config_loop_remove (entries : List (CStr × plugin_entry_func))
    (c : VTOY_JSON) (isodisk : CStr) (after : List VTOY_JSON)
    (hc : ∀ st, parse_plugin_config_scan entries c isodisk st = some st)
    (before : List VTOY_JSON) :
    ∀ st, parse_plugin_config_loop entries (before ++ c :: after) isodisk st =
      parse_plugin_config_loop entries (before ++ after) isodisk st := by
  induction before with
  | nil =>
    intro st
    simp [parse_plugin_config_loop, hc st]
  | cons b rest ih =>
    intro st
    simp only [List.cons_append, parse_plugin_config_loop]
    cases parse_plugin_config_scan entries b isodisk st with
    | none => rfl
    | some st1 => exact ih st1

/-- C10: a `control` or `auto_install` child that is not an ARRAY is dispatched without any
change of the state, and the dispatcher ends on the list as it ends on the list without that
child. -/
theorem malformed_section_skipped (sz : install_template_sizes)
    (ventoy_is_file_exist : CStr → Bool) (before after : List VTOY_JSON) (c : VTOY_JSON)
    (isodisk : CStr) (st : plugin_state)
    (hname : c.pcName = some "control".toList ∨ c.pcName = some "auto_install".toList)
    (htype : c.enDataType ≠ JSON_TYPE_ARRAY) :
    (∀ st1, parse_plugin_config_scan (g_plugin_entries sz ventoy_is_file_exist) c isodisk st1 =
        some st1) ∧
      ventoy_parse_plugin_config sz ventoy_is_file_exist (before ++ c :: after) isodisk st =
        ventoy_parse_plugin_config sz ventoy_is_file_exist (before ++ after) isodisk st := by
  have hc := fun st1 =>
    parse_plugin_config_scan_malformed sz ventoy_is_file_exist c isodisk st1 hname htype
  refine ⟨hc, ?_⟩
  unfold ventoy_parse_plugin_config
  rw [parse_plugin_config_loop_remove _ c isodisk after hc before st]

/-- C10, witness: `"control": {"vtoy_test":"1"}` followed by the `auto_install` section of
scenario 3; the second section is still dispatched and `vtoy_test` stays unset. -/
theorem malformed_section_skipped_witness :
    (malformed_control.pcName = some "control".toList ∨
        malformed_control.pcName = some "auto_install".toList) ∧
      malformed_control.enDataType ≠ JSON_TYPE_ARRAY ∧
      ((∀ st1, parse_plugin_config_scan (g_plugin_entries sizes_256 no_file) malformed_control
            "(hd0,1)".toList st1 = some st1) ∧
        ventoy_parse_plugin_config sizes_256 no_file
            ([] ++ malformed_control :: [scenario3_auto_install]) "(hd0,1)".toList empty_state =
          ventoy_parse_plugin_config sizes_256 no_file ([] ++ [scenario3_auto_install])
            "(hd0,1)".toList empty_state) ∧
      (ventoy_parse_plugin_config sizes_256 no_file malformed_control_document
          "(hd0,1)".toList empty_state).map
          (fun r => (r.1, r.2.g_install_template_head, r.2.env "vtoy_test".toList)) =
        some (0, scenario3_registry, none) :=
  ⟨Or.inl rfl, by decide,
    malformed_section_skipped sizes_256 no_file [] [scenario3_auto_install] malformed_control
      "(hd0,1)".toList empty_state (Or.inl rfl) (by decide), by decide⟩

/-- The one element of `one_image_auto_install` is accepted when the image starts with `/`. -/
theorem accepted_elements_one_image (rest : CStr) :
    accepted_elements (one_image_auto_install ('/' :: rest)).pstChild =
      [('/' :: rest, "/a.cfg".toList)] := by
  rfl

/-- Whatever the sizes of the fields, an accepted image path longer than its field is stored
cut: the registry differs from the untruncated pairs and the lookup of the image path returns
`NULL`. -/
theorem auto_install_entry_truncates_any_size (sz : install_template_sizes) :
    ∃ json st1, json.enDataType = JSON_TYPE_ARRAY ∧
      ventoy_plugin_auto_install_entry sz json [] empty_state = some (0, st1) ∧
      st1.g_install_template_head ≠
        ((accepted_elements json.pstChild).map plain_entry).reverse ∧
      ventoy_plugin_get_install_template ('/' :: List.replicate sz.isopath 'a') st1 = none := by
  obtain ⟨st1, h1, h2, _, _⟩ := auto_install_entry_spec sz
    (one_image_auto_install ('/' :: List.replicate sz.isopath 'a')) [] empty_state rfl
  rw [accepted_elements_one_image] at h2
  have htake : List.take (room_after_free empty_state)
      [('/' :: List.replicate sz.isopath 'a', "/a.cfg".toList)] =
      [('/' :: List.replicate sz.isopath 'a', "/a.cfg".toList)] := rfl
  rw [htake] at h2
  have hlen : (grub_snprintf sz.isopath ('/' :: List.replicate sz.isopath 'a')).length <
      ('/' :: List.replicate sz.isopath 'a').length := by
    unfold grub_snprintf
    have := List.length_take_le (sz.isopath - 1) ('/' :: List.replicate sz.isopath 'a')
    simp only [List.length_cons, List.length_replicate] at *
    rw [List.length_take]
    simp only [List.length_cons, List.length_replicate]
    omega
  have hne : grub_snprintf sz.isopath ('/' :: List.replicate sz.isopath 'a') ≠
      '/' :: List.replicate sz.isopath 'a' := by
    intro h
    rw [h] at hlen
    exact lt_irrefl _ hlen
  refine ⟨one_image_auto_install ('/' :: List.replicate sz.isopath 'a'), st1, rfl, h1, ?_, ?_⟩
  · rw [h2, accepted_elements_one_image]
    simp only [List.map_cons, List.map_nil, List.reverse_cons, List.reverse_nil,
      List.nil_append, stored_entry, plain_entry]
    intro h
    simp only [List.cons.injEq, install_template.mk.injEq, and_true] at h
    exact hne h.1
  · unfold ventoy_plugin_get_install_template
    rw [h2]
    simp only [List.map_cons, List.map_nil, List.reverse_cons, List.reverse_nil,
      List.nil_append, stored_entry, get_install_template_loop, grub_strcmp_is0]
    simp [hne]

/-- The table scan for a named child whose name equals no key of the table runs no entry and
leaves the state as it is, whatever the table holds. -/
theorem parse_plugin_config_scan_no_key (entries : List (CStr × plugin_entry_func))
    (c : VTOY_JSON) (name isodisk : CStr) (st : plugin_state) (hname : c.pcName = some name)
    (hkeys : ∀ e ∈ entries, e.1 ≠ name) :
    parse_plugin_config_scan entries c isodisk st = some st := by
  induction entries with
  | nil => rfl
  | cons e rest ih =>
    have he : e.1 ≠ name := hkeys e (List.mem_cons_self e rest)
    simp only [parse_plugin_config_scan, hname, grub_strcmp_is0, he, decide_False]
    exact ih (fun x hx => hkeys x (List.mem_cons_of_mem e hx))

/-- An unrecognized child has a name that differs from the three keys. -/
theorem unrecognized_section_name (c : VTOY_JSON) (h : unrecognized_section c = true) :
    ∃ name, c.pcName = some name ∧ name ≠ "control".toList ∧ name ≠ "theme".toList ∧
      name ≠ "auto_install".toList := by
  unfold unrecognized_section at h
  cases hn : c.pcName with
  | none => rw [hn] at h; cases h
  | some name =>
    rw [hn] at h
    exact ⟨name, rfl, of_decide_eq_true h⟩

/-- The dispatch of an unrecognized child through a table with the three keys, whatever its
handlers, leaves the state as it is. -/
theorem parse_plugin_config_scan_unrecognized (h1 h2 h3 : plugin_entry_func) (c : VTOY_JSON)
    (isodisk : CStr) (st : plugin_state) (h : unrecognized_section c = true) :
    parse_plugin_config_scan
        [("control".toList, h1), ("theme".toList, h2), ("auto_install".toList, h3)]
        c isodisk st = some st := by
  obtain ⟨name, hn, k1, k2, k3⟩ := unrecognized_section_name c h
  apply parse_plugin_config_scan_no_key _ c name isodisk st hn
  intro e he
  simp only [List.mem_cons, List.mem_singleton, List.not_mem_nil, or_false] at he
  rcases he with rfl | rfl | rfl
  · exact fun x => k1 x.symm
  · exact fun x => k2 x.symm
  · exact fun x => k3 x.symm

/-- Children whose dispatch never changes the state can all be filtered out of the sibling
list. -/
theorem parse_plugin_config_loop_filter (entries : List (CStr × plugin_entry_func))
    (isodisk : CStr) (skip : VTOY_JSON → Bool)
    (hskip : ∀ c st, skip c = true → parse_plugin_config_scan entries c isodisk st = some st)
    (l : List VTOY_JSON) :
    ∀ st, parse_plugin_config_loop entries l isodisk st =
      parse_plugin_config_loop entries (l.filter (fun c => !skip c)) isodisk st := by
  induction l with
  | nil => intro st; rfl
  | cons c rest ih =>
    intro st
    cases hc : skip c with
    | true =>
      rw [List.filter_cons_of_neg (by simp [hc])]
      simp only [parse_plugin_config_loop, hskip c st hc]
      exact ih st
    | false =>
      rw [List.filter_cons_of_pos (by simp [hc])]
      simp only [parse_plugin_config_loop]
      cases parse_plugin_config_scan entries c isodisk st with
      | none => rfl
      | some st1 => exact ih st1

/-- C11: a named child whose name is none of `control`, `theme`, `auto_install` runs no entry
of the table, whatever the handlers of the table are; the dispatcher ends on a list as it ends
on the list without such children; and on a list of such children only it returns 0 with the
state unchanged. -/
theorem unknown_sections_are_noops (sz : install_template_sizes)
    (ventoy_is_file_exist : CStr → Bool) (json : List VTOY_JSON) (isodisk : CStr)
    (st : plugin_state) :
    (∀ (h1 h2 h3 : plugin_entry_func) (c : VTOY_JSON) (st1 : plugin_state),
        unrecognized_section c = true →
        parse_plugin_config_scan
          [("control".toList, h1), ("theme".toList, h2), ("auto_install".toList, h3)]
          c isodisk st1 = some st1) ∧
      ventoy_parse_plugin_config sz ventoy_is_file_exist json isodisk st =
        ventoy_parse_plugin_config sz ventoy_is_file_exist
          (json.filter (fun c => !unrecognized_section c)) isodisk st ∧
      ((∀ c ∈ json, unrecognized_section c = true) →
        ventoy_parse_plugin_config sz ventoy_is_file_exist json isodisk st = some (0, st)) := by
  have hskip : ∀ c st1, unrecognized_section c = true →
      parse_plugin_config_scan (g_plugin_entries sz ventoy_is_file_exist) c isodisk st1 =
        some st1 := fun c st1 h => parse_plugin_config_scan_unrecognized _ _ _ c isodisk st1 h
  have hfilter := parse_plugin_config_loop_filter (g_plugin_entries sz ventoy_is_file_exist)
    isodisk unrecognized_section hskip json st
  refine ⟨fun h1 h2 h3 c st1 h => parse_plugin_config_scan_unrecognized h1 h2 h3 c isodisk st1 h,
    ?_, fun hall => ?_⟩
  · unfold ventoy_parse_plugin_config
    rw [hfilter]
  · have hnil : json.filter (fun c => !unrecognized_section c) = [] := by
      rw [List.filter_eq_nil_iff]
      intro c hc
      simp [hall c hc]
    unfold ventoy_parse_plugin_config
    rw [hfilter, hnil]
    rfl

/-- The document with the sections `Control`, `menu_alias` and `auto_install`: only the third
is dispatched; `vtoy_test` stays unset and the registry is the one of scenario 3. -/
theorem unknown_sections_document_result :
    unknown_sections_document.map unrecognized_section = [true, true, false] ∧
      (ventoy_parse_plugin_config sizes_256 no_file unknown_sections_document
          "(hd0,1)".toList empty_state).map
          (fun r => (r.1, r.2.g_install_template_head, r.2.env "vtoy_test".toList)) =
        some (0, scenario3_registry, none) := by
  constructor <;> decide

/-- C12: when the file opens and the parser rejects its content, the command returns a
non-zero status with the state it was called in: no section handler runs. -/
theorem load_plugin_parse_failure (sz : install_template_sizes) (w : load_collaborators)
    (args0 content : CStr) (st : plugin_state)
    (hopen : w.ventoy_grub_file_open (args0 ++ "/ventoy/ventoy.json".toList) = some content)
    (hparse : w.vtoy_json_parse content = none) :
    ∃ status res, ventoy_cmd_load_plugin sz w args0 st = some (status, st, res) ∧
      status ≠ 0 := by
  unfold ventoy_cmd_load_plugin
  simp only [hopen, hparse]
  cases w.grub_malloc with
  | false => exact ⟨1, _, rfl, by decide⟩
  | true =>
    cases w.vtoy_json_create with
    | false => exact ⟨1, _, rfl, by decide⟩
    | true => exact ⟨1, _, rfl, by decide⟩

/-- C12, witness: scenario 4, the configuration `{` after scenario 3 has filled the registry. -/
theorem load_plugin_parse_failure_witness :
    (volume_with_config (some malformed_text)).ventoy_grub_file_open
          ("(hd0,1)".toList ++ "/ventoy/ventoy.json".toList) = some malformed_text ∧
      (volume_with_config (some malformed_text)).vtoy_json_parse malformed_text = none ∧
      ∃ status res, ventoy_cmd_load_plugin sizes_256 (volume_with_config (some malformed_text))
            "(hd0,1)".toList
            { env := fun _ => none, g_install_template_head := scenario3_registry, mm := 16 } =
          some (status,
            { env := fun _ => none, g_install_template_head := scenario3_registry, mm := 16 },
            res) ∧
        status ≠ 0 :=
  ⟨by decide, rfl,
    load_plugin_parse_failure sizes_256 (volume_with_config (some malformed_text))
      "(hd0,1)".toList malformed_text _ (by decide) rfl⟩

/-- C13: when the open of `<base>/ventoy/ventoy.json` fails, the command returns
`GRUB_ERR_NONE` with the state it was called in, holding no resource. -/
theorem load_plugin_absent_file (sz : install_template_sizes) (w : load_collaborators)
    (args0 : CStr) (st : plugin_state)
    (hopen : w.ventoy_grub_file_open (args0 ++ "/ventoy/ventoy.json".toList) = none) :
    ventoy_cmd_load_plugin sz w args0 st =
      some (GRUB_ERR_NONE, st, { file := false, buf := false, json := false }) := by
  unfold ventoy_cmd_load_plugin
  simp only [hopen]

/-- C13, witness: a volume without `(hd0,1)/ventoy/ventoy.json`. -/
theorem load_plugin_absent_file_witness :
    (volume_with_config none).ventoy_grub_file_open
          ("(hd0,1)".toList ++ "/ventoy/ventoy.json".toList) = none ∧
      ventoy_cmd_load_plugin sizes_256 (volume_with_config none) "(hd0,1)".toList empty_state =
        some (GRUB_ERR_NONE, empty_state, { file := false, buf := false, json := false }) :=
  ⟨by decide, load_plugin_absent_file sizes_256 (volume_with_config none) "(hd0,1)".toList
    empty_state (by decide)⟩

/-- C14, the code at the failing input, the configuration `{`: the command returns 1 while the
document is still held; and when `vtoy_json_create` returns `NULL` it returns 1 while the read
buffer is still held. -/
theorem load_plugin_leaks :
    (ventoy_cmd_load_plugin sizes_256 (volume_with_config (some malformed_text))
          "(hd0,1)".toList empty_state).map (fun r => (r.1, r.2.2)) =
        some (1, { file := false, buf := false, json := true }) ∧
      (ventoy_cmd_load_plugin sizes_256 (volume_without_document (some malformed_text))
          "(hd0,1)".toList empty_state).map (fun r => (r.1, r.2.2)) =
        some (1, { file := false, buf := true, json := false }) := by
  constructor <;> decide

/-- The exits that release everything: the failed open, the failed `grub_malloc`, and the
normal completion. -/
theorem load_plugin_released (sz : install_template_sizes) (w : load_collaborators)
    (args0 : CStr) (st : plugin_state)
    (r : Int × plugin_state × load_resources)
    (hr : ventoy_cmd_load_plugin sz w args0 st = some r)
    (hpath : w.ventoy_grub_file_open (args0 ++ "/ventoy/ventoy.json".toList) = none ∨
      w.grub_malloc = false ∨
      ∃ content json, w.ventoy_grub_file_open (args0 ++ "/ventoy/ventoy.json".toList) =
          some content ∧ w.vtoy_json_create = true ∧ w.vtoy_json_parse content = some json) :
    all_released r.2.2 = true := by
  unfold ventoy_cmd_load_plugin at hr
  cases hopen : w.ventoy_grub_file_open (args0 ++ "/ventoy/ventoy.json".toList) with
  | none =>
    simp only [hopen] at hr
    cases hr
    rfl
  | some content =>
    simp only [hopen] at hr
    cases hm : w.grub_malloc with
    | false =>
      simp only [hm, if_true] at hr
      cases hr
      rfl
    | true =>
      rcases hpath with h | h | ⟨content1, json, h1, h2, h3⟩
      · rw [hopen] at h; cases h
      · rw [hm] at h; cases h
      · rw [hopen] at h1
        cases h1
        simp only [hm, h2, h3] at hr
        cases hd : ventoy_parse_plugin_config sz w.ventoy_is_file_exist json.pstChild args0 st with
        | none => simp [hd] at hr
        | some r1 =>
          simp [hd] at hr
          rw [← hr]
          rfl

/-- Scenario 1 through the command: `vtoy_test` is `1`, the status is 0 and nothing is held. -/
theorem load_plugin_scenario1 :
    (ventoy_cmd_load_plugin sizes_256 (volume_with_config (some scenario1_text))
        "(hd0,1)".toList empty_state).map
        (fun r => (r.1, r.2.1.env "vtoy_test".toList, r.2.2)) =
      some (0, some "1".toList, { file := false, buf := false, json := false }) := by
  decide

/-- C15, the code at the failing input `[{}]`: the element stands for no assignment, and the
handler does not return: it reads `pChild->enDataType` through the null `pstChild` of the
element. -/
theorem control_entry_empty_object_only :
    empty_object_only_control.enDataType = JSON_TYPE_ARRAY ∧
      empty_object_only_control.pstChild.map VTOY_JSON.enDataType = [JSON_TYPE_OBJECT] ∧
      empty_object_only_control.pstChild.map (fun e => e.pstChild.length) = [0] ∧
      empty_object_only_control.pstChild.filterMap control_assignment = [] ∧
      (ventoy_plugin_control_entry empty_object_only_control [] empty_state).isSome = false := by
  refine ⟨rfl, ?_, ?_, ?_, ?_⟩ <;> decide

/-- The table scan for a named child runs the first entry whose key equals the name, and no
other; the status the handler returns is dropped. -/
theorem parse_plugin_config_scan_named (entries : List (CStr × plugin_entry_func))
    (c : VTOY_JSON) (name isodisk : CStr) (st : plugin_state) (hname : c.pcName = some name) :
    parse_plugin_config_scan entries c isodisk st =
      match entries.find? (fun e => decide (e.1 = name)) with
      | none => some st
      | some e => (e.2 c isodisk st).map (fun r => r.2) := by
  induction entries with
  | nil => rfl
  | cons e rest ih =>
    by_cases he : e.1 = name
    · simp only [parse_plugin_config_scan, hname, grub_strcmp_is0, he, decide_True,
        List.find?_cons_of_pos, if_true]
      cases e.2 c isodisk st <;> rfl
    · simp only [parse_plugin_config_scan, hname, grub_strcmp_is0, he, decide_False]
      rw [List.find?_cons_of_neg _ (by simp [he])]
      exact ih

/-- The table scan for a child without a name does not return, whatever the non-empty table
holds: `grub_strcmp` reads the null `pcName`. -/
theorem parse_plugin_config_scan_nameless (e : CStr × plugin_entry_func)
    (rest : List (CStr × plugin_entry_func)) (c : VTOY_JSON) (isodisk : CStr)
    (st : plugin_state) (hname : c.pcName = none) :
    parse_plugin_config_scan (e :: rest) c isodisk st = none := by
  simp only [parse_plugin_config_scan, hname]

/-- C16, the code at the failing input, the children of the document `["x"]`: the one child
has no name, and the dispatcher does not return: `grub_strcmp` reads the null `pcName`. -/
theorem parse_plugin_config_nameless_child :
    nameless_children.map VTOY_JSON.pcName = [none] ∧
      (ventoy_parse_plugin_config sizes_256 no_file nameless_children "(hd0,1)".toList
          empty_state).isSome = false := by
  constructor <;> decide

/-- A path that starts with `/`, cut to a field of at least two bytes, starts with `/`. -/
theorem starts_with_slash_snprintf (size : Nat) (s : CStr) (hsize : 2 ≤ size)
    (hs : starts_with_slash s = true) : starts_with_slash (grub_snprintf size s) = true := by
  unfold grub_snprintf
  cases s with
  | nil => cases hs
  | cons c rest =>
    obtain ⟨k, hk⟩ : ∃ k, size - 1 = k + 1 := ⟨size - 2, by omega⟩
    rw [hk, List.take_succ_cons]
    exact hs

/-- A path that starts with `/` is not empty. -/
theorem ne_nil_of_starts_with_slash (s : CStr) (hs : starts_with_slash s = true) :
    s ≠ [] ∧ s.head? = some '/' := by
  cases s with
  | nil => cases hs
  | cons c rest =>
    refine ⟨by simp, ?_⟩
    have : c = '/' := of_decide_eq_true hs
    rw [this]
    rfl

/-- `grub_zalloc` changes neither the environment nor the registry. -/
theorem grub_zalloc_frame (st : plugin_state) :
    (grub_zalloc st).2.env = st.env ∧
      (grub_zalloc st).2.g_install_template_head = st.g_install_template_head := by
  unfold grub_zalloc
  cases st.mm <;> exact ⟨rfl, rfl⟩

/-- One pass of the loop body of the auto-install handler, whatever room the heap has: the
environment is unchanged, and the list is unchanged or gets one entry in front, made of an
image path and a template path that start with `/`, each cut to its field. -/
theorem auto_install_entry_body_cases (sz : install_template_sizes) (pNode : VTOY_JSON)
    (st : plugin_state) :
    (auto_install_entry_body sz pNode st).env = st.env ∧
      ((auto_install_entry_body sz pNode st).g_install_template_head =
          st.g_install_template_head ∨
        ∃ iso script, starts_with_slash iso = true ∧ starts_with_slash script = true ∧
          (auto_install_entry_body sz pNode st).g_install_template_head =
            stored_entry sz (iso, script) :: st.g_install_template_head) := by
  obtain ⟨z1, z2⟩ := grub_zalloc_frame st
  unfold auto_install_entry_body
  generalize vtoy_json_get_string_ex pNode.pstChild "image".toList = oi
  generalize vtoy_json_get_string_ex pNode.pstChild "template".toList = ot
  rcases oi with _ | iso
  · exact ⟨rfl, Or.inl rfl⟩
  · rcases ot with _ | script
    · by_cases hs1 : starts_with_slash iso = true <;> simp [hs1]
    · by_cases hs1 : starts_with_slash iso = true
      · by_cases hs2 : starts_with_slash script = true
        · cases hz : (grub_zalloc st).1 with
          | false =>
            simp only [hs1, hs2, hz, if_true, Bool.false_eq_true, if_false]
            exact ⟨z1, Or.inl z2⟩
          | true =>
            simp only [hs1, hs2, hz, if_true]
            refine ⟨z1, Or.inr ⟨iso, script, hs1, hs2, ?_⟩⟩
            simp only [stored_entry, z2]
        · simp [hs1, hs2]
      · simp [hs1]

/-- The loop of the auto-install handler keeps the environment, and keeps the registry made of
paths that start with `/` when the fields have at least two bytes. -/
theorem auto_install_entry_loop_frame (sz : install_template_sizes) (arr : List VTOY_JSON) :
    ∀ st : plugin_state,
      (auto_install_entry_loop sz arr st).env = st.env ∧
        (2 ≤ sz.isopath → 2 ≤ sz.templatepath → registry_absolute st →
          registry_absolute (auto_install_entry_loop sz arr st)) := by
  induction arr with
  | nil => intro st; exact ⟨rfl, fun _ _ h => h⟩
  | cons pNode rest ih =>
    intro st
    obtain ⟨b1, b2⟩ := auto_install_entry_body_cases sz pNode st
    obtain ⟨l1, l2⟩ := ih (auto_install_entry_body sz pNode st)
    refine ⟨l1.trans b1, fun h1 h2 hst => l2 h1 h2 ?_⟩
    rcases b2 with b2 | ⟨iso, script, hs1, hs2, b2⟩
    · intro e he
      rw [b2] at he
      exact hst e he
    · intro e he
      rw [b2] at he
      rcases List.mem_cons.mp he with rfl | he
      · simp only [entry_absolute, stored_entry, Bool.and_eq_true]
        exact ⟨starts_with_slash_snprintf _ _ h1 hs1, starts_with_slash_snprintf _ _ h2 hs2⟩
      · exact hst e he

/-- The auto-install handler returns 0, keeps the environment, and keeps the registry made of
paths that start with `/` when the fields have at least two bytes. -/
theorem auto_install_entry_frame (sz : install_template_sizes) (json : VTOY_JSON)
    (isodisk : CStr) (st : plugin_state) :
    ∃ st1, ventoy_plugin_auto_install_entry sz json isodisk st = some (0, st1) ∧
      st1.env = st.env ∧
      (2 ≤ sz.isopath → 2 ≤ sz.templatepath → registry_absolute st → registry_absolute st1) := by
  unfold ventoy_plugin_auto_install_entry
  by_cases harr : json.enDataType = JSON_TYPE_ARRAY
  · rw [if_neg (not_not.mpr harr)]
    obtain ⟨l1, l2⟩ := auto_install_entry_loop_frame sz json.pstChild
      (auto_install_entry_reset st)
    obtain ⟨r1, r2, _⟩ := auto_install_entry_reset_spec st
    refine ⟨_, rfl, l1.trans r2, fun h1 h2 _ => l2 h1 h2 ?_⟩
    intro e he
    rw [r1] at he
    cases he
  · rw [if_pos harr]
    exact ⟨st, rfl, rfl, fun _ _ h => h⟩

/-- One pass of the loop body of the control handler, when it returns, changes neither the
registry nor the heap. -/
theorem control_entry_body_frame (pNode : VTOY_JSON) (st st1 : plugin_state)
    (h : control_entry_body pNode st = some st1) :
    st1.g_install_template_head = st.g_install_template_head ∧ st1.mm = st.mm := by
  unfold control_entry_body at h
  split at h
  · split at h
    · cases h
    · split at h
      · split at h
        · cases h
          exact ⟨rfl, rfl⟩
        · cases h
          exact ⟨rfl, rfl⟩
      · cases h
        exact ⟨rfl, rfl⟩
  · cases h
    exact ⟨rfl, rfl⟩

/-- The loop of the control handler, when it returns, changes neither the registry nor the
heap. -/
theorem control_entry_loop_frame (arr : List VTOY_JSON) :
    ∀ st st1 : plugin_state, control_entry_loop arr st = some st1 →
      st1.g_install_template_head = st.g_install_template_head ∧ st1.mm = st.mm := by
  induction arr with
  | nil =>
    intro st st1 h
    cases h
    exact ⟨rfl, rfl⟩
  | cons pNode rest ih =>
    intro st st1 h
    simp only [control_entry_loop] at h
    cases hb : control_entry_body pNode st with
    | none => rw [hb] at h; cases h
    | some st2 =>
      rw [hb] at h
      obtain ⟨b1, b2⟩ := control_entry_body_frame pNode st st2 hb
      obtain ⟨l1, l2⟩ := ih st2 st1 h
      exact ⟨l1.trans b1, l2.trans b2⟩

/-- The control handler, when it returns, returns 0 and changes neither the registry nor the
heap. -/
theorem control_entry_frame (json : VTOY_JSON) (isodisk : CStr) (st : plugin_state)
    (r : Int × plugin_state) (h : ventoy_plugin_control_entry json isodisk st = some r) :
    r.1 = 0 ∧ r.2.g_install_template_head = st.g_install_template_head ∧ r.2.mm = st.mm := by
  unfold ventoy_plugin_control_entry at h
  split at h
  · cases h
    exact ⟨rfl, rfl, rfl⟩
  · cases hl : control_entry_loop json.pstChild st with
    | none => rw [hl] at h; cases h
    | some st1 =>
      rw [hl] at h
      cases h
      exact ⟨rfl, control_entry_loop_frame json.pstChild st st1 hl⟩

/-- The theme handler returns 0 and changes neither the registry nor the heap. -/
theorem theme_entry_frame (ventoy_is_file_exist : CStr → Bool) (json : VTOY_JSON)
    (isodisk : CStr) (st : plugin_state) :
    ∃ st1, ventoy_plugin_theme_entry ventoy_is_file_exist json isodisk st = some (0, st1) ∧
      st1.g_install_template_head = st.g_install_template_head ∧ st1.mm = st.mm := by
  unfold ventoy_plugin_theme_entry
  cases vtoy_json_get_string_ex json.pstChild "file".toList with
  | none =>
    obtain ⟨st1, h1, _, h3, h4⟩ := theme_entry_gfxmode_keeps_theme json st
    exact ⟨st1, h1, h3, h4⟩
  | some f =>
    simp only
    split
    · exact ⟨st, rfl, rfl, rfl⟩
    · obtain ⟨st1, h1, _, h3, h4⟩ := theme_entry_gfxmode_keeps_theme json
        (grub_env_set "vtoy_theme".toList (theme_entry_filepath isodisk f) st)
      exact ⟨st1, h1, h3, h4⟩

/-- The table scan keeps every property of the state that each handler of the table keeps. -/
theorem parse_plugin_config_scan_preserves (P : plugin_state → Prop)
    (entries : List (CStr × plugin_entry_func))
    (hall : ∀ e ∈ entries, ∀ c isodisk st r, P st → e.2 c isodisk st = some r → P r.2)
    (c : VTOY_JSON) (isodisk : CStr) (st st1 : plugin_state) (hst : P st)
    (h : parse_plugin_config_scan entries c isodisk st = some st1) : P st1 := by
  induction entries with
  | nil =>
    cases h
    exact hst
  | cons e rest ih =>
    simp only [parse_plugin_config_scan] at h
    cases hn : c.pcName with
    | none => rw [hn] at h; cases h
    | some name =>
      rw [hn] at h
      simp only at h
      by_cases hk : grub_strcmp_is0 e.1 name = true
      · rw [if_pos hk] at h
        cases hr : e.2 c isodisk st with
        | none => rw [hr] at h; cases h
        | some r =>
          rw [hr] at h
          cases h
          exact hall e (List.mem_cons_self e rest) c isodisk st r hst hr
      · rw [if_neg hk] at h
        exact ih (fun x hx => hall x (List.mem_cons_of_mem e hx)) h

/-- The loop of the dispatcher keeps every property of the state that each handler of the table
keeps. -/
theorem parse_plugin_config_loop_preserves (P : plugin_state → Prop)
    (entries : List (CStr × plugin_entry_func))
    (hall : ∀ e ∈ entries, ∀ c isodisk st r, P st → e.2 c isodisk st = some r → P r.2)
    (isodisk : CStr) (l : List VTOY_JSON) :
    ∀ st st1, P st → parse_plugin_config_loop entries l isodisk st = some st1 → P st1 := by
  induction l with
  | nil =>
    intro st st1 hst h
    cases h
    exact hst
  | cons c rest ih =>
    intro st st1 hst h
    simp only [parse_plugin_config_loop] at h
    cases hs : parse_plugin_config_scan entries c isodisk st with
    | none => rw [hs] at h; cases h
    | some st2 =>
      rw [hs] at h
      exact ih st2 st1 (parse_plugin_config_scan_preserves P entries hall c isodisk st st2 hst hs) h

/-- Each handler of `g_plugin_entries` keeps the registry made of paths that start with `/`,
when the fields have at least two bytes. -/
theorem g_plugin_entries_registry_absolute (sz : install_template_sizes)
    (ventoy_is_file_exist : CStr → Bool) (h1 : 2 ≤ sz.isopath) (h2 : 2 ≤ sz.templatepath) :
    ∀ e ∈ g_plugin_entries sz ventoy_is_file_exist, ∀ c isodisk st r, registry_absolute st →
      e.2 c isodisk st = some r → registry_absolute r.2 := by
  intro e he c isodisk st r hst hr
  simp only [g_plugin_entries, List.mem_cons, List.mem_singleton, List.not_mem_nil,
    or_false] at he
  rcases he with rfl | rfl | rfl
  · obtain ⟨_, hh, _⟩ := control_entry_frame c isodisk st r hr
    intro x hx
    rw [hh] at hx
    exact hst x hx
  · obtain ⟨st1, e1, hh, _⟩ := theme_entry_frame ventoy_is_file_exist c isodisk st
    have hr1 : ventoy_plugin_theme_entry ventoy_is_file_exist c isodisk st = some r := hr
    rw [e1] at hr1
    cases hr1
    intro x hx
    rw [hh] at hx
    exact hst x hx
  · obtain ⟨st1, e1, _, hh⟩ := auto_install_entry_frame sz c isodisk st
    have hr1 : ventoy_plugin_auto_install_entry sz c isodisk st = some r := hr
    rw [e1] at hr1
    cases hr1
    exact hh h1 h2 hst

/-- The dispatcher, when it returns, keeps the registry made of paths that start with `/`. -/
theorem parse_plugin_config_registry_absolute (sz : install_template_sizes)
    (ventoy_is_file_exist : CStr → Bool) (h1 : 2 ≤ sz.isopath) (h2 : 2 ≤ sz.templatepath)
    (json : List VTOY_JSON) (isodisk : CStr) (st : plugin_state) (r : Int × plugin_state)
    (hst : registry_absolute st)
    (hr : ventoy_parse_plugin_config sz ventoy_is_file_exist json isodisk st = some r) :
    registry_absolute r.2 := by
  unfold ventoy_parse_plugin_config at hr
  cases hl : parse_plugin_config_loop (g_plugin_entries sz ventoy_is_file_exist) json isodisk
      st with
  | none => rw [hl] at hr; cases hr
  | some st1 =>
    rw [hl] at hr
    cases hr
    exact parse_plugin_config_loop_preserves registry_absolute _
      (g_plugin_entries_registry_absolute sz ventoy_is_file_exist h1 h2) isodisk json st st1
      hst hl

/-- The load command, when it returns, keeps the registry made of paths that start with `/`. -/
theorem load_plugin_registry_absolute (sz : install_template_sizes) (w : load_collaborators)
    (h1 : 2 ≤ sz.isopath) (h2 : 2 ≤ sz.templatepath) (args0 : CStr) (st : plugin_state)
    (r : Int × plugin_state × load_resources) (hst : registry_absolute st)
    (hr : ventoy_cmd_load_plugin sz w args0 st = some r) : registry_absolute r.2.1 := by
  unfold ventoy_cmd_load_plugin at hr
  simp only at hr
  split at hr
  · cases hr
    exact hst
  · split at hr
    · cases hr
      exact hst
    · split at hr
      · cases hr
        exact hst
      · split at hr
        · cases hr
          exact hst
        · split at hr
          · cases hr
          · rename_i r1 hd
            cases hr
            exact parse_plugin_config_registry_absolute sz _ h1 h2 _ args0 st r1 hst hd

/-- One call, when it returns, keeps the registry made of paths that start with `/`. -/
theorem run_call_registry_absolute (sz : install_template_sizes) (h1 : 2 ≤ sz.isopath)
    (h2 : 2 ≤ sz.templatepath) (call : plugin_call) (st st1 : plugin_state)
    (hst : registry_absolute st) (h : run_call sz call st = some st1) :
    registry_absolute st1 := by
  cases call with
  | control json isodisk =>
    simp only [run_call, Option.map_eq_some'] at h
    obtain ⟨r, hr, rfl⟩ := h
    obtain ⟨_, hh, _⟩ := control_entry_frame json isodisk st r hr
    intro x hx
    rw [hh] at hx
    exact hst x hx
  | theme ventoy_is_file_exist json isodisk =>
    simp only [run_call, Option.map_eq_some'] at h
    obtain ⟨r, hr, rfl⟩ := h
    obtain ⟨st2, e1, hh, _⟩ := theme_entry_frame ventoy_is_file_exist json isodisk st
    rw [e1] at hr
    cases hr
    intro x hx
    rw [hh] at hx
    exact hst x hx
  | auto_install json isodisk =>
    simp only [run_call, Option.map_eq_some'] at h
    obtain ⟨r, hr, rfl⟩ := h
    obtain ⟨st2, e1, _, hh⟩ := auto_install_entry_frame sz json isodisk st
    rw [e1] at hr
    cases hr
    exact hh h1 h2 hst
  | dispatch ventoy_is_file_exist json isodisk =>
    simp only [run_call, Option.map_eq_some'] at h
    obtain ⟨r, hr, rfl⟩ := h
    exact parse_plugin_config_registry_absolute sz ventoy_is_file_exist h1 h2 json isodisk st r
      hst hr
  | load w args0 =>
    simp only [run_call, Option.map_eq_some'] at h
    obtain ⟨r, hr, rfl⟩ := h
    exact load_plugin_registry_absolute sz w h1 h2 args0 st r hst hr
  | lookup isopath =>
    simp only [run_call] at h
    cases h
    exact hst

/-- A sequence of calls, when it returns, keeps the registry made of paths that start with
`/`. -/
theorem run_calls_registry_absolute (sz : install_template_sizes) (h1 : 2 ≤ sz.isopath)
    (h2 : 2 ≤ sz.templatepath) (calls : List plugin_call) :
    ∀ st st1, registry_absolute st → run_calls sz calls st = some st1 →
      registry_absolute st1 := by
  induction calls with
  | nil =>
    intro st st1 hst h
    cases h
    exact hst
  | cons call rest ih =>
    intro st st1 hst h
    simp only [run_calls] at h
    cases hc : run_call sz call st with
    | none => rw [hc] at h; cases h
    | some st2 =>
      rw [hc] at h
      exact ih st2 st1 (run_call_registry_absolute sz h1 h2 call st st2 hst hc) h

/-- C17: with fields of at least two bytes, from a state with the empty registry, after any
sequence of calls of the section handlers, the dispatcher, the load command and the lookup,
every entry of the registry has an image path and a template path that are not empty and start
with `/`. -/
theorem registry_invariant (sz : install_template_sizes) (calls : List plugin_call)
    (st st1 : plugin_state) (h1 : 2 ≤ sz.isopath) (h2 : 2 ≤ sz.templatepath)
    (hst : st.g_install_template_head = [])
    (hrun : run_calls sz calls st = some st1) :
    ∀ e ∈ st1.g_install_template_head,
      (e.isopath ≠ [] ∧ e.isopath.head? = some '/') ∧
        (e.templatepath ≠ [] ∧ e.templatepath.head? = some '/') := by
  have h0 : registry_absolute st := by
    intro e he
    rw [hst] at he
    cases he
  have hinv := run_calls_registry_absolute sz h1 h2 calls st st1 h0 hrun
  intro e he
  have habs := hinv e he
  simp only [entry_absolute, Bool.and_eq_true] at habs
  exact ⟨ne_nil_of_starts_with_slash _ habs.1, ne_nil_of_starts_with_slash _ habs.2⟩

set_option maxRecDepth 100000 in
/-- C17, witness: `sample_calls` from `empty_state` with fields of 256 bytes. -/
theorem registry_invariant_witness :
    2 ≤ sizes_256.isopath ∧ 2 ≤ sizes_256.templatepath ∧
      empty_state.g_install_template_head = [] ∧
      run_calls sizes_256 sample_calls empty_state = some sample_calls_result ∧
      ∀ e ∈ sample_calls_result.g_install_template_head,
        (e.isopath ≠ [] ∧ e.isopath.head? = some '/') ∧
          (e.templatepath ≠ [] ∧ e.templatepath.head? = some '/') :=
  ⟨by decide, by decide, rfl, rfl,
    registry_invariant sizes_256 sample_calls empty_state sample_calls_result (by decide)
      (by decide) rfl rfl⟩

/-- C18: the control handler, when it returns, and the theme handler leave the registry as it
was; the auto-install handler leaves the environment as it was; the lookup leaves the state as
it was. -/
theorem handler_isolation (sz : install_template_sizes) (ventoy_is_file_exist : CStr → Bool)
    (json : VTOY_JSON) (isodisk isopath : CStr) (st : plugin_state) :
    (∀ r, ventoy_plugin_control_entry json isodisk st = some r →
        r.2.g_install_template_head = st.g_install_template_head) ∧
      (∃ st1, ventoy_plugin_theme_entry ventoy_is_file_exist json isodisk st = some (0, st1) ∧
        st1.g_install_template_head = st.g_install_template_head) ∧
      (∃ st1, ventoy_plugin_auto_install_entry sz json isodisk st = some (0, st1) ∧
        st1.env = st.env) ∧
      run_call sz (.lookup isopath) st = some st := by
  refine ⟨fun r hr => (control_entry_frame json isodisk st r hr).2.1, ?_, ?_, rfl⟩
  · obtain ⟨st1, e1, hh, _⟩ := theme_entry_frame ventoy_is_file_exist json isodisk st
    exact ⟨st1, e1, hh⟩
  · obtain ⟨st1, e1, hh, _⟩ := auto_install_entry_frame sz json isodisk st
    exact ⟨st1, e1, hh⟩

end VentoyPlugin
